import Mathlib

/-!
# Verification of the prop-firm-scanner decision pipeline

A shallow embedding, in Lean 4, of the core decision pipeline of the
`prop-firm-scanner` repository, together with proofs of the testable
properties stated in its specification.

Modelling conventions:
* Python floats are modelled as rationals (`ℚ`).  Where non-finite float
  values matter (webhook ingestion), a dedicated `PyFloat` type with
  explicit `nan` / `inf` / `ninf` constructors is used.
* `round(x, n)` in Python is round-half-to-even; it is modelled exactly by
  `roundPy2` / `roundPy1` / `roundPyInt` below.  `int(x)` truncates toward
  zero and is modelled by `pyInt`.
* Wall-clock reads (`datetime.now()`, `pytz` conversion) are modelled by
  passing the current weekday / hour / minute explicitly.
* Dictionaries whose values are only read pointwise are modelled as
  functions; dictionaries that are iterated over are modelled as
  association lists.
* Display-only artifacts (emoji, free-text narrative strings, Discord
  colours, log output) are omitted; every branch condition and every
  numeric computation of the source is kept.
-/

/-! ## Python numeric primitives -/

/-- Python `round` to an integer: round half to even (banker's rounding). -/
def roundHalfEven (x : ℚ) : ℤ :=
  let f := ⌊x⌋
  let r := x - f
  if r < 1/2 then f
  else if 1/2 < r then f + 1
  else if f % 2 = 0 then f else f + 1

/-- Python `round(x, 2)`. -/
def roundPy2 (x : ℚ) : ℚ := (roundHalfEven (x * 100) : ℚ) / 100

/-- Python `round(x, 1)`. -/
def roundPy1 (x : ℚ) : ℚ := (roundHalfEven (x * 10) : ℚ) / 10

/-- Python `round(x, 3)`. -/
def roundPy3 (x : ℚ) : ℚ := (roundHalfEven (x * 1000) : ℚ) / 1000

/-- Python `round(x)` (single-argument form), returning an integer. -/
def roundPyInt (x : ℚ) : ℤ := roundHalfEven x

/-- Python `int(x)` on a float: truncation toward zero. -/
def pyInt (x : ℚ) : ℤ := if 0 ≤ x then ⌊x⌋ else ⌈x⌉

/-- The last `n` elements of a list (Python `l[-n:]`, deque truncation). -/
def takeLast (n : ℕ) (l : List α) : List α := l.drop (l.length - n)

/-- Arithmetic mean of a list of rationals (`statistics.mean`; the source
only applies it to non-empty lists). -/
def listMean (l : List ℚ) : ℚ := l.sum / l.length

/-! ## Ticker configuration (`mtf_analyzer.py`, TICK_VALUES)

Tickers are modelled after contract-month normalisation
(`get_base_ticker`: `MNQZ2025 → MNQ`); `other` stands for any symbol that
is not a configured key, which `get_ticker_info` maps to the `MNQ` entry. -/

inductive Ticker
  | MNQ | MES | MGC | NQ | ES | GC | other
deriving DecidableEq, Repr

structure TickInfo where
  tick_size : ℚ
  tick_value : ℚ
  max_stop_points : ℚ
deriving DecidableEq, Repr

/-- `TICK_VALUES` dict from `mtf_analyzer.py`. -/
def TICK_VALUES : Ticker → Option TickInfo
  | Ticker.MNQ => some ⟨1/4, 1/2, 15⟩
  | Ticker.MES => some ⟨1/4, 5/4, 6⟩
  | Ticker.MGC => some ⟨1/10, 1, 10⟩
  | Ticker.NQ  => some ⟨1/4, 5, 15⟩
  | Ticker.ES  => some ⟨1/4, 25/2, 6⟩
  | Ticker.GC  => some ⟨1/10, 10, 10⟩
  | Ticker.other => none

/-- `get_ticker_info`: `TICK_VALUES.get(base, TICK_VALUES.get('MNQ'))`. -/
def get_ticker_info (ticker : Ticker) : TickInfo :=
  match TICK_VALUES ticker with
  | some info => info
  | none => ⟨1/4, 1/2, 15⟩

/-- Trade direction strings `'LONG'` / `'SHORT'` used by the analyzer. -/
inductive TradeDir
  | LONG | SHORT
deriving DecidableEq, Repr

/-- `cap_stop_loss` (`mtf_analyzer.py` lines 78–98).
Returns `(capped_stop, was_capped, stop_distance_points)`. -/
def cap_stop_loss (ticker : Ticker) (entry calculated_stop : ℚ)
    (direction : TradeDir) : ℚ × Bool × ℚ :=
  let info := get_ticker_info ticker
  let max_stop := info.max_stop_points
  let stop_distance := |entry - calculated_stop|
  if max_stop < stop_distance then
    let capped_stop :=
      if direction = TradeDir.LONG then entry - max_stop else entry + max_stop
    (roundPy2 capped_stop, true, max_stop)
  else
    (calculated_stop, false, roundPy2 stop_distance)

/-- Result dict of `calculate_position_size`. -/
structure PositionSize where
  contracts : ℤ
  risk_per_contract : ℚ
  actual_risk : ℚ
  suggested_risk : ℚ
  ticks_to_stop : ℚ
  stop_distance_points : ℚ
  tick_value : ℚ
  tick_size : ℚ
deriving DecidableEq, Repr

/-- `calculate_position_size` (`mtf_analyzer.py` lines 101–153).
The tier-based default for `risk_amount` is supplied by the caller. -/
def calculate_position_size (ticker : Ticker) (entry stop : ℚ)
    (risk_amount : ℚ) : PositionSize :=
  let info := get_ticker_info ticker
  let tick_size := info.tick_size
  let tick_value := info.tick_value
  let stop_distance_points := |entry - stop|
  let ticks_to_stop := stop_distance_points / tick_size
  let risk_per_contract := ticks_to_stop * tick_value
  let contracts : ℤ :=
    if 0 < risk_per_contract then max 1 (pyInt (risk_amount / risk_per_contract))
    else 1
  let actual_risk := (contracts : ℚ) * risk_per_contract
  { contracts := contracts
    risk_per_contract := roundPy2 risk_per_contract
    actual_risk := roundPy2 actual_risk
    suggested_risk := risk_amount
    ticks_to_stop := roundPy1 ticks_to_stop
    stop_distance_points := roundPy2 stop_distance_points
    tick_value := tick_value
    tick_size := tick_size }

/-! Basic facts about the primitives. -/

lemma roundHalfEven_intCast (z : ℤ) : roundHalfEven (z : ℚ) = z := by
  unfold roundHalfEven
  simp [Int.floor_intCast]

lemma roundPy2_of_cents (x : ℚ) (z : ℤ) (h : x * 100 = (z : ℚ)) :
    roundPy2 x = x := by
  unfold roundPy2
  rw [h, roundHalfEven_intCast, ← h]
  field_simp

lemma max_one_pyInt_eq_max_one_floor (q : ℚ) :
    max 1 (pyInt q) = max 1 ⌊q⌋ := by
  unfold pyInt
  split_ifs with h
  · rfl
  · have hq : q < 0 := lt_of_not_le h
    have h1 : ⌈q⌉ ≤ 0 := Int.ceil_le.mpr (by exact_mod_cast hq.le)
    have h2 : ⌊q⌋ ≤ ⌈q⌉ := Int.floor_le_ceil q
    omega

lemma tick_info_pos (t : Ticker) :
    0 < (get_ticker_info t).tick_size ∧ 0 < (get_ticker_info t).tick_value := by
  cases t <;> simp [get_ticker_info, TICK_VALUES]

lemma cap_stop_loss_eq (t : Ticker) (entry raw : ℚ) (d : TradeDir) :
    cap_stop_loss t entry raw d =
      if (get_ticker_info t).max_stop_points < |entry - raw| then
        (roundPy2 (if d = TradeDir.LONG
            then entry - (get_ticker_info t).max_stop_points
            else entry + (get_ticker_info t).max_stop_points),
          true, (get_ticker_info t).max_stop_points)
      else (raw, false, roundPy2 |entry - raw|) := rfl

lemma max_stop_int (t : Ticker) :
    ∃ m : ℤ, (get_ticker_info t).max_stop_points = (m : ℚ) ∧ 0 ≤ m := by
  cases t
  · exact ⟨15, by norm_num [get_ticker_info, TICK_VALUES], by norm_num⟩
  · exact ⟨6, by norm_num [get_ticker_info, TICK_VALUES], by norm_num⟩
  · exact ⟨10, by norm_num [get_ticker_info, TICK_VALUES], by norm_num⟩
  · exact ⟨15, by norm_num [get_ticker_info, TICK_VALUES], by norm_num⟩
  · exact ⟨6, by norm_num [get_ticker_info, TICK_VALUES], by norm_num⟩
  · exact ⟨10, by norm_num [get_ticker_info, TICK_VALUES], by norm_num⟩
  · exact ⟨15, by norm_num [get_ticker_info, TICK_VALUES], by norm_num⟩

/-- Claim C6 (confirmed): for every instrument, entry, stop and risk budget,
the position sizer returns
`contracts = max 1 ⌊riskBudget / ((|entry-stop| / tickSize) * tickValue)⌋`
when the stop distance is non-zero, and `1` contract when it is zero
(division-by-zero guard); in particular MNQ with a 15.0-point stop and a
250-dollar budget yields 8 contracts. -/
theorem position_size_formula (t : Ticker) (entry stop risk : ℚ) :
    (entry ≠ stop →
      (calculate_position_size t entry stop risk).contracts =
        max 1 ⌊risk / ((|entry - stop| / (get_ticker_info t).tick_size) *
          (get_ticker_info t).tick_value)⌋) ∧
    (entry = stop → (calculate_position_size t entry stop risk).contracts = 1) ∧
    (calculate_position_size Ticker.MNQ 21000 20985 250).contracts = 8 := by
  refine ⟨?_, ?_, by norm_num [calculate_position_size, get_ticker_info,
    TICK_VALUES, pyInt]⟩
  · intro h
    obtain ⟨hts, htv⟩ := tick_info_pos t
    have hd : 0 < |entry - stop| := abs_pos.mpr (sub_ne_zero.mpr h)
    have hrpc : 0 < |entry - stop| / (get_ticker_info t).tick_size *
        (get_ticker_info t).tick_value := by positivity
    unfold calculate_position_size
    simp only [if_pos hrpc]
    exact max_one_pyInt_eq_max_one_floor _
  · intro h
    subst h
    have h0 : |entry - entry| / (get_ticker_info t).tick_size *
        (get_ticker_info t).tick_value = 0 := by simp
    unfold calculate_position_size
    simp [h0]

theorem position_size_formula_witness :
    ((21000 : ℚ) ≠ 20985) ∧
      (calculate_position_size Ticker.MNQ 21000 20985 250).contracts =
        max 1 ⌊(250 : ℚ) / ((|(21000 : ℚ) - 20985| /
          (get_ticker_info Ticker.MNQ).tick_size) *
          (get_ticker_info Ticker.MNQ).tick_value)⌋ :=
  ⟨by norm_num, (position_size_formula Ticker.MNQ 21000 20985 250).1 (by norm_num)⟩

/-- Claim C5 (amended): the analyzer never rejects a stop, it only caps it
and records whether capping occurred (`was_capped = true` exactly when the
raw stop distance exceeds the instrument maximum `M`).  Whenever the entry
price is a whole number of cents — as every price on a real tick grid is —
the emitted stop satisfies `|entry − stop| ≤ M`.  (For an entry off the
cent grid, the capped stop is rounded to two decimals, which can push the
distance up to half a cent past `M`; see the counterexample.) -/
theorem cap_stop_loss_bounded (t : Ticker) (entry raw_stop : ℚ)
    (d : TradeDir) (z : ℤ) (hz : entry * 100 = (z : ℚ)) :
    |entry - (cap_stop_loss t entry raw_stop d).1| ≤
      (get_ticker_info t).max_stop_points ∧
    ((cap_stop_loss t entry raw_stop d).2.1 = true ↔
      (get_ticker_info t).max_stop_points < |entry - raw_stop|) := by
  obtain ⟨m, hm, hm0⟩ := max_stop_int t
  have hM0 : (0 : ℚ) ≤ (get_ticker_info t).max_stop_points := by
    rw [hm]; exact_mod_cast hm0
  rw [cap_stop_loss_eq]
  by_cases h : (get_ticker_info t).max_stop_points < |entry - raw_stop|
  · rw [if_pos h]
    refine ⟨?_, by simpa using h⟩
    cases d
    · rw [if_pos rfl]
      have hcents : (entry - (get_ticker_info t).max_stop_points) * 100 =
          ((z - m * 100 : ℤ) : ℚ) := by
        rw [hm]; push_cast; linear_combination hz
      rw [roundPy2_of_cents _ _ hcents,
        show entry - (entry - (get_ticker_info t).max_stop_points) =
          (get_ticker_info t).max_stop_points by ring,
        abs_of_nonneg hM0]
    · rw [if_neg (by decide)]
      have hcents : (entry + (get_ticker_info t).max_stop_points) * 100 =
          ((z + m * 100 : ℤ) : ℚ) := by
        rw [hm]; push_cast; linear_combination hz
      rw [roundPy2_of_cents _ _ hcents,
        show entry - (entry + (get_ticker_info t).max_stop_points) =
          -(get_ticker_info t).max_stop_points by ring,
        abs_neg, abs_of_nonneg hM0]
  · rw [if_neg h]
    exact ⟨not_lt.mp h, by simpa using h⟩

theorem cap_stop_loss_bounded_witness :
    ((21000 : ℚ) * 100 = ((2100000 : ℤ) : ℚ)) ∧
      (|(21000 : ℚ) - (cap_stop_loss Ticker.MNQ 21000 20950 TradeDir.LONG).1| ≤
        (get_ticker_info Ticker.MNQ).max_stop_points ∧
      ((cap_stop_loss Ticker.MNQ 21000 20950 TradeDir.LONG).2.1 = true ↔
        (get_ticker_info Ticker.MNQ).max_stop_points < |(21000 : ℚ) - 20950|)) :=
  ⟨by norm_num,
   cap_stop_loss_bounded Ticker.MNQ 21000 20950 TradeDir.LONG 2100000 (by norm_num)⟩

/-! ## Outcome tracker (`outcome_tracker.py`) and signal rows (`database.py`)

String-valued enumerations of the source are modelled as inductive types:
the source compares `direction.lower()` against `'long'` / `'short'`
(`SigDir.LONG` stands for any casing of `long`, `SigDir.other` for any
other string), and outcome states are the four statuses used by
`signal_recommendations` rows.  The live price fetch
(`get_current_price`: in-memory cache, then database, then yfinance) is
impure and is modelled as an oracle `priceOf : String → Option ℚ`;
`none` models every fetch-failure path. -/

inductive SigDir
  | LONG | SHORT | other
deriving DecidableEq, Repr

inductive Outcome
  | PENDING | WIN | LOSS | DISCARDED
deriving DecidableEq, Repr

/-- The signal dict consumed by `check_signal_outcome`. -/
structure TrackedSignal where
  ticker : String
  direction : SigDir
  entry_price : Option ℚ
  stop_price : Option ℚ
  target_price : Option ℚ
deriving DecidableEq, Repr

/-- `check_signal_outcome` (`outcome_tracker.py` lines 87–125).  The
Python truthiness test `not all([entry, stop, target])` treats both `None`
and `0` as missing.  Returns `(outcome, price, pnl)` or `None`. -/
def check_signal_outcome (signal : TrackedSignal) (current_price : Option ℚ) :
    Option (Outcome × ℚ × ℚ) :=
  match signal.entry_price, signal.stop_price, signal.target_price with
  | some entry, some stop, some target =>
    if entry = 0 ∨ stop = 0 ∨ target = 0 then none
    else
      match current_price with
      | none => none
      | some price =>
        match signal.direction with
        | SigDir.LONG =>
          if target ≤ price then some (Outcome.WIN, price, target - entry)
          else if price ≤ stop then some (Outcome.LOSS, price, stop - entry)
          else none
        | SigDir.SHORT =>
          if price ≤ target then some (Outcome.WIN, price, entry - target)
          else if stop ≤ price then some (Outcome.LOSS, price, entry - stop)
          else none
        | SigDir.other => none
  | _, _, _ => none

/-- A row of the `signal_recommendations` table (columns touched by the
outcome pipeline). -/
structure SignalRow where
  id : ℕ
  ticker : String
  direction : SigDir
  entry_price : Option ℚ
  stop_price : Option ℚ
  target_price : Option ℚ
  outcome : Outcome
  exit_price : Option ℚ
  pnl_ticks : Option ℚ
deriving DecidableEq, Repr

/-- `update_signal_outcome` (`database.py` lines 406–427): normalises the
requested outcome (anything outside WIN/LOSS/DISCARDED becomes PENDING)
and then updates the row with the matching id *unconditionally* — there is
no `WHERE outcome = PENDING` guard.  (The win/loss counters it also bumps
on `strategy_versions` are outside the modelled state.) -/
def update_signal_outcome (db : List SignalRow) (signal_id : ℕ)
    (outcome : Outcome) (exit_price : Option ℚ) (pnl_ticks : ℚ) :
    List SignalRow :=
  let normalized :=
    if outcome = Outcome.WIN ∨ outcome = Outcome.LOSS ∨
        outcome = Outcome.DISCARDED then outcome
    else Outcome.PENDING
  db.map fun r =>
    if r.id = signal_id then
      { r with outcome := normalized, exit_price := exit_price,
               pnl_ticks := some pnl_ticks }
    else r

/-- `get_pending_signals` (`database.py` lines 481–499):
`WHERE outcome = 'PENDING' AND direction IN ('LONG','SHORT')`. -/
def get_pending_signals (db : List SignalRow) : List SignalRow :=
  db.filter fun r =>
    decide (r.outcome = Outcome.PENDING ∧
      (r.direction = SigDir.LONG ∨ r.direction = SigDir.SHORT))

/-- View of a row as the signal dict passed to `check_signal_outcome`. -/
def row_signal (r : SignalRow) : TrackedSignal :=
  ⟨r.ticker, r.direction, r.entry_price, r.stop_price, r.target_price⟩

/-- Loop body of `check_all_pending_outcomes`: resolve one pending signal
if its target or stop has been hit, otherwise leave the store unchanged. -/
def outcome_check_step (priceOf : String → Option ℚ) (acc : List SignalRow)
    (signal : SignalRow) : List SignalRow :=
  match check_signal_outcome (row_signal signal) (priceOf signal.ticker) with
  | some (outcome, price, pnl) =>
      update_signal_outcome acc signal.id outcome (some price) pnl
  | none => acc

/-- `check_all_pending_outcomes` (`outcome_tracker.py` lines 239–277): the
periodic checker fetches the pending rows once, then resolves each one
whose target or stop has been hit.  (The Apex P&L recording it triggers
acts on the separate account state modelled below.) -/
def check_all_pending_outcomes (db : List SignalRow)
    (priceOf : String → Option ℚ) : List SignalRow :=
  (get_pending_signals db).foldl (outcome_check_step priceOf) db

/-- The expiry branch of the per-signal tracking thread (`track_signal`,
`outcome_tracker.py` line 147): after `max_duration_hours` it calls
`update_signal_outcome(signal_id, 'DISCARDED', None, 0)` without checking
the current status of the row. -/
def track_signal_expire (db : List SignalRow) (signal_id : ℕ) :
    List SignalRow :=
  update_signal_outcome db signal_id Outcome.DISCARDED none 0

/-- Claim C7 (counterexample): for a degenerate LONG recommendation whose
target lies below its stop (entry 100, stop 110, target 90) and price 95,
both "price ≥ target" and "price ≤ stop" hold; the code returns WIN with
pnl `target − entry = −10`, not the LOSS with pnl `stop − entry = 10` that
the claim requires for any price ≤ stop. -/
theorem check_signal_outcome_loss_clause_cex :
    check_signal_outcome ⟨"MNQ", SigDir.LONG, some 100, some 110, some 90⟩
        (some 95) = some (Outcome.WIN, 95, -10) ∧
      check_signal_outcome ⟨"MNQ", SigDir.LONG, some 100, some 110, some 90⟩
        (some 95) ≠ some (Outcome.LOSS, 95, 10) := by
  constructor <;> norm_num [check_signal_outcome]

/-- Claim C7 (amended): with entry/stop/target all present and non-zero
(a zero value is treated as unavailable by the Python truthiness check),
the target comparison has priority: for LONG, price ≥ target ⇒ WIN with
pnl `target − entry`; otherwise price ≤ stop ⇒ LOSS with pnl
`stop − entry`; otherwise no outcome — and symmetrically for SHORT.  An
unavailable price yields no outcome. -/
theorem check_signal_outcome_spec (sig : TrackedSignal)
    (entry stop target price : ℚ)
    (he : sig.entry_price = some entry) (hs : sig.stop_price = some stop)
    (ht : sig.target_price = some target)
    (he0 : entry ≠ 0) (hs0 : stop ≠ 0) (ht0 : target ≠ 0) :
    (sig.direction = SigDir.LONG →
      (target ≤ price →
        check_signal_outcome sig (some price) =
          some (Outcome.WIN, price, target - entry)) ∧
      (price < target → price ≤ stop →
        check_signal_outcome sig (some price) =
          some (Outcome.LOSS, price, stop - entry)) ∧
      (price < target → stop < price →
        check_signal_outcome sig (some price) = none)) ∧
    (sig.direction = SigDir.SHORT →
      (price ≤ target →
        check_signal_outcome sig (some price) =
          some (Outcome.WIN, price, entry - target)) ∧
      (target < price → stop ≤ price →
        check_signal_outcome sig (some price) =
          some (Outcome.LOSS, price, entry - stop)) ∧
      (target < price → price < stop →
        check_signal_outcome sig (some price) = none)) ∧
    check_signal_outcome sig none = none := by
  have hcond : ¬(entry = 0 ∨ stop = 0 ∨ target = 0) := by tauto
  refine ⟨?_, ?_, ?_⟩
  · intro hdir
    refine ⟨?_, ?_, ?_⟩
    · intro hp
      simp only [check_signal_outcome, he, hs, ht, hdir, if_neg hcond,
        if_pos hp]
    · intro h1 h2
      simp only [check_signal_outcome, he, hs, ht, hdir, if_neg hcond,
        if_neg (not_le.mpr h1), if_pos h2]
    · intro h1 h2
      simp only [check_signal_outcome, he, hs, ht, hdir, if_neg hcond,
        if_neg (not_le.mpr h1), if_neg (not_le.mpr h2)]
  · intro hdir
    refine ⟨?_, ?_, ?_⟩
    · intro hp
      simp only [check_signal_outcome, he, hs, ht, hdir, if_neg hcond,
        if_pos hp]
    · intro h1 h2
      simp only [check_signal_outcome, he, hs, ht, hdir, if_neg hcond,
        if_neg (not_le.mpr h1), if_pos h2]
    · intro h1 h2
      simp only [check_signal_outcome, he, hs, ht, hdir, if_neg hcond,
        if_neg (not_le.mpr h1), if_neg (not_le.mpr h2)]
  · simp only [check_signal_outcome, he, hs, ht, if_neg hcond]

theorem check_signal_outcome_spec_witness :
    check_signal_outcome ⟨"MNQ", SigDir.LONG, some 100, some 95, some 110⟩
      (some 112) = some (Outcome.WIN, 112, 10) := by
  have h := (check_signal_outcome_spec
    ⟨"MNQ", SigDir.LONG, some 100, some 95, some 110⟩ 100 95 110 112
    rfl rfl rfl (by norm_num) (by norm_num) (by norm_num)).1 rfl
  rw [h.1 (by norm_num)]
  norm_num

/-- Claim C8 (counterexample): `update_signal_outcome` carries no
terminal-status guard, so the tracking-thread expiry path overwrites an
already-won recommendation with DISCARDED (and zeroes its pnl) instead of
being a no-op. -/
theorem terminal_overwrite_cex :
    (track_signal_expire
        [⟨1, "MNQ", SigDir.LONG, some 100, some 95, some 110,
          Outcome.WIN, some 110, some 10⟩] 1).map SignalRow.outcome =
      [Outcome.DISCARDED] ∧
    track_signal_expire
        [⟨1, "MNQ", SigDir.LONG, some 100, some 95, some 110,
          Outcome.WIN, some 110, some 10⟩] 1 ≠
      [⟨1, "MNQ", SigDir.LONG, some 100, some 95, some 110,
        Outcome.WIN, some 110, some 10⟩] := by
  constructor <;>
    simp [track_signal_expire, update_signal_outcome, SignalRow.mk.injEq]

lemma outcome_check_step_length (priceOf : String → Option ℚ)
    (acc : List SignalRow) (s : SignalRow) :
    (outcome_check_step priceOf acc s).length = acc.length := by
  unfold outcome_check_step
  rcases check_signal_outcome (row_signal s) (priceOf s.ticker) with _ | ⟨o, p, pn⟩
  · rfl
  · simp [update_signal_outcome]

lemma outcome_check_step_getElem (priceOf : String → Option ℚ)
    (acc : List SignalRow) (s : SignalRow) (i : ℕ) (r : SignalRow)
    (h : acc[i]? = some r) (hid : r.id ≠ s.id) :
    (outcome_check_step priceOf acc s)[i]? = some r := by
  unfold outcome_check_step
  rcases check_signal_outcome (row_signal s) (priceOf s.ticker) with _ | ⟨o, p, pn⟩
  · exact h
  · simp [update_signal_outcome, List.getElem?_map, h, hid]

lemma outcome_check_step_id (priceOf : String → Option ℚ)
    (acc : List SignalRow) (s : SignalRow) (i : ℕ) (r : SignalRow)
    (h : acc[i]? = some r) :
    ∃ r2, (outcome_check_step priceOf acc s)[i]? = some r2 ∧ r2.id = r.id := by
  unfold outcome_check_step
  rcases check_signal_outcome (row_signal s) (priceOf s.ticker) with _ | ⟨o, p, pn⟩
  · exact ⟨r, h, rfl⟩
  · refine ⟨if r.id = s.id then
        { r with
          outcome := if o = Outcome.WIN ∨ o = Outcome.LOSS ∨
              o = Outcome.DISCARDED then o else Outcome.PENDING,
          exit_price := some p, pnl_ticks := some pn }
      else r, ?_, ?_⟩
    · simp [update_signal_outcome, List.getElem?_map, h]
    · split <;> rfl

lemma foldl_outcome_length (priceOf : String → Option ℚ) :
    ∀ (P : List SignalRow) (acc : List SignalRow),
      (P.foldl (outcome_check_step priceOf) acc).length = acc.length
  | [], acc => rfl
  | s :: P, acc => by
      rw [List.foldl_cons, foldl_outcome_length priceOf P,
        outcome_check_step_length]

lemma foldl_outcome_inv (priceOf : String → Option ℚ) (db : List SignalRow)
    (hinj : ∀ x ∈ db, ∀ y ∈ db, x.id = y.id → x = y) :
    ∀ (P : List SignalRow),
      (∀ s ∈ P, s ∈ db ∧ s.outcome = Outcome.PENDING) →
      ∀ (acc : List SignalRow),
      (∀ (i : ℕ) (r₀ : SignalRow), db[i]? = some r₀ →
        ∃ r, acc[i]? = some r ∧ r.id = r₀.id ∧
        (r₀.outcome ≠ Outcome.PENDING → r = r₀)) →
      ∀ (i : ℕ) (r₀ : SignalRow), db[i]? = some r₀ →
        ∃ r, (P.foldl (outcome_check_step priceOf) acc)[i]? = some r ∧
          r.id = r₀.id ∧ (r₀.outcome ≠ Outcome.PENDING → r = r₀)
  | [], _, acc, hacc => hacc
  | s :: P, hP, acc, hacc => by
      have hs := hP s (List.mem_cons_self s P)
      rw [List.foldl_cons]
      refine foldl_outcome_inv priceOf db hinj P
        (fun x hx => hP x (List.mem_cons_of_mem s hx)) _ ?_
      intro i r₀ hr₀
      obtain ⟨r, hr, hid, hterm⟩ := hacc i r₀ hr₀
      by_cases hc : r.id = s.id
      · obtain ⟨r2, hr2, hid2⟩ := outcome_check_step_id priceOf acc s i r hr
        refine ⟨r2, hr2, hid2.trans hid, ?_⟩
        intro hT
        exfalso
        have hmem : r₀ ∈ db := List.getElem?_mem hr₀
        have heq : r₀ = s := hinj r₀ hmem s hs.1 (by rw [← hid, hc])
        exact hT (heq ▸ hs.2)
      · exact ⟨r, outcome_check_step_getElem priceOf acc s i r hr hc, hid, hterm⟩

/-- Claim C8 (amended): the periodic outcome checker
(`check_all_pending_outcomes`) evaluates only rows fetched by
`get_pending_signals` (outcome = PENDING), so — with distinct row ids — a
recommendation that is already WIN, LOSS or DISCARDED is left exactly as
it is by a periodic evaluation.  `update_signal_outcome` itself, however,
overwrites unconditionally, so the per-signal tracking thread (its expiry
path in particular) can still change a terminal row; see the
counterexample. -/
theorem recommendation_terminality (db : List SignalRow)
    (priceOf : String → Option ℚ)
    (hnd : (db.map SignalRow.id).Nodup) :
    (check_all_pending_outcomes db priceOf).length = db.length ∧
    ∀ (i : ℕ) (r₀ : SignalRow), db[i]? = some r₀ →
      r₀.outcome ≠ Outcome.PENDING →
      (check_all_pending_outcomes db priceOf)[i]? = some r₀ := by
  have hinj : ∀ x ∈ db, ∀ y ∈ db, x.id = y.id → x = y := by
    intro x hx y hy hxy
    exact List.inj_on_of_nodup_map hnd hx hy hxy
  constructor
  · exact foldl_outcome_length priceOf _ db
  · intro i r₀ hr₀ hT
    have hsub : ∀ s ∈ get_pending_signals db,
        s ∈ db ∧ s.outcome = Outcome.PENDING := by
      intro s hsmem
      unfold get_pending_signals at hsmem
      refine ⟨List.mem_of_mem_filter hsmem, ?_⟩
      have := List.of_mem_filter hsmem
      simp only [decide_eq_true_eq] at this
      exact this.1
    have hbase : ∀ (i : ℕ) (r₀ : SignalRow), db[i]? = some r₀ →
        ∃ r, db[i]? = some r ∧ r.id = r₀.id ∧
          (r₀.outcome ≠ Outcome.PENDING → r = r₀) := by
      intro i r₀ h
      exact ⟨r₀, h, rfl, fun _ => rfl⟩
    obtain ⟨r, hr, _, hterm⟩ :=
      foldl_outcome_inv priceOf db hinj (get_pending_signals db) hsub db
        hbase i r₀ hr₀
    rw [check_all_pending_outcomes, hr, hterm hT]

theorem recommendation_terminality_witness :
    (([⟨1, "MNQ", SigDir.LONG, some 100, some 95, some 110,
          Outcome.WIN, some 110, some 10⟩,
        ⟨2, "MNQ", SigDir.SHORT, some 200, some 205, some 190,
          Outcome.PENDING, none, none⟩].map SignalRow.id).Nodup) ∧
      (check_all_pending_outcomes
          [⟨1, "MNQ", SigDir.LONG, some 100, some 95, some 110,
            Outcome.WIN, some 110, some 10⟩,
           ⟨2, "MNQ", SigDir.SHORT, some 200, some 205, some 190,
            Outcome.PENDING, none, none⟩] (fun _ => none))[0]? =
        some ⟨1, "MNQ", SigDir.LONG, some 100, some 95, some 110,
          Outcome.WIN, some 110, some 10⟩ :=
  ⟨by decide,
   (recommendation_terminality _ (fun _ => none) (by decide)).2 0 _ rfl
     (by decide)⟩

/-! ## Apex rules engine (`apex_rules.py`)

The account state is modelled after `initialize_state_if_needed` has run
(balances are plain rationals, as the claims assume an initialized
account).  `daily_pnl` is an association list (it is iterated over by the
consistency rule); `alerts_sent` is modelled as a total function
defaulting to `[]` — the source's `if date not in alerts_sent:
alerts_sent[date] = []` merely materialises that default.  Alert
`message` strings (formatted floats) are display-only and omitted; the
consistency alert's `violations`/`max_allowed_pct` payload is carried in
the shared numeric fields (worst day profit / percentage / allowed pct). -/

structure ApexConfig where
  account_size : ℚ
  max_daily_loss : ℚ
  max_trailing_drawdown : ℚ
  initial_balance : ℚ
  daily_loss_warning_pct : ℚ
  daily_loss_block_pct : ℚ
  max_day_profit_pct : ℚ
  tick_values : String → Option ℚ

/-- `DEFAULT_APEX_CONFIG`. -/
def DEFAULT_APEX_CONFIG : ApexConfig where
  account_size := 50000
  max_daily_loss := 2500
  max_trailing_drawdown := 2500
  initial_balance := 50000
  daily_loss_warning_pct := 80
  daily_loss_block_pct := 100
  max_day_profit_pct := 30
  tick_values := fun s =>
    if s = "MNQ" ∨ s = "MNQ=F" then some (1/2)
    else if s = "MES" ∨ s = "MES=F" then some (5/4)
    else if s = "MGC" ∨ s = "MGC=F" then some 1
    else none

/-- `get_tick_value`: exchange prefix is stripped, unknown symbols
default to `1.0` dollars per tick. -/
def get_tick_value (cfg : ApexConfig) (ticker : String) : ℚ :=
  let base_ticker := ((ticker.splitOn ":").headD ticker)
  (cfg.tick_values base_ticker).getD 1

/-- `ticks_to_dollars`. -/
def ticks_to_dollars (cfg : ApexConfig) (ticker : String) (ticks : ℚ) : ℚ :=
  ticks * get_tick_value cfg ticker

structure ApexState where
  high_water_mark : ℚ
  trailing_drawdown_start : ℚ
  current_balance : ℚ
  daily_pnl : List (String × ℚ)
  alerts_sent : String → List String

/-- `reset_apex_state`. -/
def reset_apex_state (cfg : ApexConfig) : ApexState where
  high_water_mark := cfg.initial_balance
  trailing_drawdown_start := cfg.initial_balance
  current_balance := cfg.initial_balance
  daily_pnl := []
  alerts_sent := fun _ => []

/-- Python `dict.get(k, d)` on the daily-pnl association list. -/
def assocGet (l : List (String × ℚ)) (k : String) (d : ℚ) : ℚ :=
  match l.find? (fun p => decide (p.1 = k)) with
  | some p => p.2
  | none => d

/-- `daily_pnl[k] += x` (with `0` inserted first when the key is new). -/
def assocAdd (l : List (String × ℚ)) (k : String) (x : ℚ) :
    List (String × ℚ) :=
  if (l.find? (fun p => decide (p.1 = k))).isSome then
    l.map (fun p => if p.1 = k then (p.1, p.2 + x) else p)
  else l ++ [(k, x)]

structure ApexAlert where
  type_ : String
  severity : String
  title : String
  value : ℚ
  limit : ℚ
  percentage : ℚ
  action : String
deriving DecidableEq, Repr

/-- `check_daily_loss_limit` (`apex_rules.py` lines 243–295): warn at
`daily_loss_warning_pct`, block at `daily_loss_block_pct`, each at most
once per date (recorded in `alerts_sent[date]`). -/
def check_daily_loss_limit (cfg : ApexConfig) (st : ApexState)
    (date_key : String) : List ApexAlert × ApexState :=
  let daily_pnl := assocGet st.daily_pnl date_key 0
  if daily_pnl < 0 then
    let loss_amount := |daily_pnl|
    let loss_pct := loss_amount / cfg.max_daily_loss * 100
    let sent := st.alerts_sent date_key
    if cfg.daily_loss_block_pct ≤ loss_pct ∧ "daily_loss_block" ∉ sent then
      ([{ type_ := "daily_loss_block", severity := "critical",
          title := "DAILY LOSS LIMIT REACHED", value := loss_amount,
          limit := cfg.max_daily_loss, percentage := loss_pct,
          action := "block" }],
       { st with alerts_sent :=
           (Function.update st.alerts_sent date_key (sent ++ ["daily_loss_block"])) })
    else if cfg.daily_loss_warning_pct ≤ loss_pct ∧
        "daily_loss_warning" ∉ sent then
      ([{ type_ := "daily_loss_warning", severity := "warning",
          title := "DAILY LOSS WARNING", value := loss_amount,
          limit := cfg.max_daily_loss, percentage := loss_pct,
          action := "warn" }],
       { st with alerts_sent :=
           (Function.update st.alerts_sent date_key (sent ++ ["daily_loss_warning"])) })
    else ([], st)
  else ([], st)

/-- `check_trailing_drawdown` (`apex_rules.py` lines 298–353).  The
`None` guards disappear in the initialized-state model; the
floor/distance quantities feed only the message text. -/
def check_trailing_drawdown (cfg : ApexConfig) (st : ApexState)
    (today_key : String) : List ApexAlert × ApexState :=
  let current := st.current_balance
  let high_water := st.high_water_mark
  let drawdown := high_water - current
  let drawdown_pct :=
    if 0 < cfg.max_trailing_drawdown then
      drawdown / cfg.max_trailing_drawdown * 100
    else 0
  let sent := st.alerts_sent today_key
  if cfg.max_trailing_drawdown ≤ drawdown ∧ "drawdown_breach" ∉ sent then
    ([{ type_ := "drawdown_breach", severity := "critical",
        title := "TRAILING DRAWDOWN BREACHED", value := drawdown,
        limit := cfg.max_trailing_drawdown, percentage := drawdown_pct,
        action := "block" }],
     { st with alerts_sent :=
         (Function.update st.alerts_sent today_key (sent ++ ["drawdown_breach"])) })
  else if 80 ≤ drawdown_pct ∧ "drawdown_warning" ∉ sent then
    ([{ type_ := "drawdown_warning", severity := "warning",
        title := "TRAILING DRAWDOWN WARNING", value := drawdown,
        limit := cfg.max_trailing_drawdown, percentage := drawdown_pct,
        action := "warn" }],
     { st with alerts_sent :=
         (Function.update st.alerts_sent today_key (sent ++ ["drawdown_warning"])) })
  else ([], st)

/-- `check_consistency_rule` (`apex_rules.py` lines 356–401): no single
positive day may exceed `max_day_profit_pct` of the summed positive-day
profit; the alert names the worst offender (Python `max` keeps the first
maximal element). -/
def check_consistency_rule (cfg : ApexConfig) (st : ApexState)
    (today_key : String) : List ApexAlert × ApexState :=
  let total_profit :=
    ((st.daily_pnl.map (fun p => p.2)).filter (fun v => decide (0 < v))).sum
  if total_profit ≤ 0 then ([], st)
  else
    let violations := st.daily_pnl.filter (fun p =>
      decide (0 < p.2 ∧ cfg.max_day_profit_pct < p.2 / total_profit * 100))
    let sent := st.alerts_sent today_key
    if violations ≠ [] ∧ "consistency_warning" ∉ sent then
      let worst := violations.tail.foldl
        (fun best p => if best.2 / total_profit * 100 <
            p.2 / total_profit * 100 then p else best)
        (violations.headD ("", 0))
      ([{ type_ := "consistency_warning", severity := "warning",
          title := "CONSISTENCY RULE WARNING", value := worst.2,
          limit := cfg.max_day_profit_pct,
          percentage := worst.2 / total_profit * 100,
          action := "warn" }],
       { st with alerts_sent :=
           (Function.update st.alerts_sent today_key (sent ++ ["consistency_warning"])) })
    else ([], st)

/-- `check_all_rules`.  The source re-reads the wall clock for the
drawdown/consistency dedup date; `today_key` carries that date. -/
def check_all_rules (cfg : ApexConfig) (st : ApexState)
    (date_key today_key : String) : List ApexAlert × ApexState :=
  let r1 := check_daily_loss_limit cfg st date_key
  let r2 := check_trailing_drawdown cfg r1.2 today_key
  let r3 := check_consistency_rule cfg r2.2 today_key
  (r1.1 ++ r2.1 ++ r3.1, r3.2)

/-- Result dict of `record_trade_result`. -/
structure TradeResult where
  pnl_dollars : ℚ
  daily_pnl : ℚ
  current_balance : ℚ
  alerts : List ApexAlert

/-- `record_trade_result` (`apex_rules.py` lines 167–214): convert ticks
to dollars, add to the day's pnl and the balance, ratchet the high-water
mark, then run the three rule checks. -/
def record_trade_result (cfg : ApexConfig) (st : ApexState)
    (ticker : String) (pnl_ticks : ℚ) (date_key today_key : String) :
    TradeResult × ApexState :=
  let pnl_dollars := ticks_to_dollars cfg ticker pnl_ticks
  let st1 : ApexState :=
    { st with daily_pnl := assocAdd st.daily_pnl date_key pnl_dollars }
  let st2 : ApexState :=
    { st1 with current_balance := st1.current_balance + pnl_dollars }
  let st3 : ApexState :=
    if st2.high_water_mark < st2.current_balance then
      { st2 with high_water_mark := st2.current_balance }
    else st2
  let r := check_all_rules cfg st3 date_key today_key
  ({ pnl_dollars := pnl_dollars
     daily_pnl := assocGet r.2.daily_pnl date_key 0
     current_balance := r.2.current_balance
     alerts := r.1 }, r.2)

/-- The claim-C9 scenario: run the daily-loss check `n` times in a row on
the same date (the check itself never modifies `daily_pnl`, so the pnl is
the same — still losing — at every call), threading the state and
concatenating the emitted alerts. -/
def iterate_daily_check (cfg : ApexConfig) (date_key : String) :
    ℕ → ApexState → List ApexAlert × ApexState
  | 0, st => ([], st)
  | n + 1, st =>
      let r := check_daily_loss_limit cfg st date_key
      let rest := iterate_daily_check cfg date_key n r.2
      (r.1 ++ rest.1, rest.2)

lemma check_daily_pnl_unchanged (cfg : ApexConfig) (st : ApexState)
    (d : String) :
    (check_daily_loss_limit cfg st d).2.daily_pnl = st.daily_pnl := by
  unfold check_daily_loss_limit
  dsimp only
  split_ifs <;> rfl

lemma check_daily_output_shape (cfg : ApexConfig) (st : ApexState)
    (d : String) :
    (check_daily_loss_limit cfg st d).1 = [] ∨
    ∃ a, (check_daily_loss_limit cfg st d).1 = [a] ∧
      a.type_ ∉ st.alerts_sent d ∧
      a.type_ ∈ (check_daily_loss_limit cfg st d).2.alerts_sent d := by
  unfold check_daily_loss_limit
  dsimp only
  split_ifs with h1 h2 h3
  · refine Or.inr ⟨_, rfl, h2.2, ?_⟩
    simp [Function.update_same]
  · refine Or.inr ⟨_, rfl, h3.2, ?_⟩
    simp [Function.update_same]
  · exact Or.inl rfl
  · exact Or.inl rfl

lemma check_daily_monotone (cfg : ApexConfig) (st : ApexState)
    (d : String) (T : String) (h : T ∈ st.alerts_sent d) :
    T ∈ (check_daily_loss_limit cfg st d).2.alerts_sent d := by
  unfold check_daily_loss_limit
  dsimp only
  split_ifs <;> simp [Function.update_same, h]

lemma iterate_daily_no_repeat (cfg : ApexConfig) (d T : String) :
    ∀ (n : ℕ) (st : ApexState), T ∈ st.alerts_sent d →
      ((iterate_daily_check cfg d n st).1.countP
        (fun a => decide (a.type_ = T))) = 0
  | 0, st, _ => rfl
  | n + 1, st, h => by
      rw [iterate_daily_check]
      simp only [List.countP_append]
      have h1 : ((check_daily_loss_limit cfg st d).1.countP
          (fun a => decide (a.type_ = T))) = 0 := by
        rcases check_daily_output_shape cfg st d with hs | ⟨a, hs, hnot, _⟩
        · rw [hs]; rfl
        · rw [hs]
          simp only [List.countP_cons, List.countP_nil]
          have : ¬ a.type_ = T := fun he => hnot (he ▸ h)
          simp [this]
      rw [h1, iterate_daily_no_repeat cfg d T n _
        (check_daily_monotone cfg st d T h)]

lemma iterate_daily_at_most_once (cfg : ApexConfig) (d T : String) :
    ∀ (n : ℕ) (st : ApexState),
      ((iterate_daily_check cfg d n st).1.countP
        (fun a => decide (a.type_ = T))) ≤ 1
  | 0, _ => by simp [iterate_daily_check]
  | n + 1, st => by
      rw [iterate_daily_check]
      simp only [List.countP_append]
      rcases check_daily_output_shape cfg st d with hs | ⟨a, hs, _, hrec⟩
      · rw [hs]
        simpa using iterate_daily_at_most_once cfg d T n _
      · rw [hs]
        by_cases hT : a.type_ = T
        · have : ((iterate_daily_check cfg d n
              (check_daily_loss_limit cfg st d).2).1.countP
              (fun x => decide (x.type_ = T))) = 0 :=
            iterate_daily_no_repeat cfg d T n _ (hT ▸ hrec)
          simp [this, List.countP_cons, hT]
        · have h0 : ([a].countP (fun x => decide (x.type_ = T))) = 0 := by
            simp [List.countP_cons, hT]
          rw [h0]
          simpa using iterate_daily_at_most_once cfg d T n _

/-- Claim C9 (confirmed): however many times the daily-loss check runs on
one date with the same still-losing pnl, the `daily_loss_warning` alert
(and likewise `daily_loss_block`) appears in the combined output at most
once for that date, and an alert type already recorded in `alerts_sent`
for that date is never emitted again. -/
theorem daily_loss_alert_dedup (cfg : ApexConfig) (st : ApexState)
    (d : String) (n : ℕ) :
    ((iterate_daily_check cfg d n st).1.countP
      (fun a => decide (a.type_ = "daily_loss_warning"))) ≤ 1 ∧
    ((iterate_daily_check cfg d n st).1.countP
      (fun a => decide (a.type_ = "daily_loss_block"))) ≤ 1 ∧
    ("daily_loss_warning" ∈ st.alerts_sent d →
      ((iterate_daily_check cfg d n st).1.countP
        (fun a => decide (a.type_ = "daily_loss_warning"))) = 0) ∧
    ("daily_loss_block" ∈ st.alerts_sent d →
      ((iterate_daily_check cfg d n st).1.countP
        (fun a => decide (a.type_ = "daily_loss_block"))) = 0) :=
  ⟨iterate_daily_at_most_once cfg d _ n st,
   iterate_daily_at_most_once cfg d _ n st,
   fun h => iterate_daily_no_repeat cfg d _ n st h,
   fun h => iterate_daily_no_repeat cfg d _ n st h⟩

theorem daily_loss_alert_dedup_witness :
    ("daily_loss_warning" ∈
      (ApexState.mk 50000 50000 47900 [("2025-01-02", -2100)]
        (fun k => if k = "2025-01-02" then ["daily_loss_warning"] else [])
        ).alerts_sent "2025-01-02") ∧
    ((iterate_daily_check DEFAULT_APEX_CONFIG "2025-01-02" 3
        (ApexState.mk 50000 50000 47900 [("2025-01-02", -2100)]
          (fun k => if k = "2025-01-02" then ["daily_loss_warning"] else [])
          )).1.countP
      (fun a => decide (a.type_ = "daily_loss_warning"))) = 0 := by
  have hmem : "daily_loss_warning" ∈
      (ApexState.mk 50000 50000 47900 [("2025-01-02", -2100)]
        (fun k => if k = "2025-01-02" then ["daily_loss_warning"] else [])
        ).alerts_sent "2025-01-02" := by
    simp
  exact ⟨hmem,
    (daily_loss_alert_dedup DEFAULT_APEX_CONFIG _ "2025-01-02" 3).2.2.1 hmem⟩

lemma check_daily_preserves (cfg : ApexConfig) (st : ApexState)
    (d : String) :
    (check_daily_loss_limit cfg st d).2.current_balance =
      st.current_balance ∧
    (check_daily_loss_limit cfg st d).2.high_water_mark =
      st.high_water_mark := by
  unfold check_daily_loss_limit
  dsimp only
  split_ifs <;> exact ⟨rfl, rfl⟩

lemma check_drawdown_preserves (cfg : ApexConfig) (st : ApexState)
    (t : String) :
    (check_trailing_drawdown cfg st t).2.current_balance =
      st.current_balance ∧
    (check_trailing_drawdown cfg st t).2.high_water_mark =
      st.high_water_mark := by
  unfold check_trailing_drawdown
  dsimp only
  split_ifs <;> exact ⟨rfl, rfl⟩

lemma check_consistency_preserves (cfg : ApexConfig) (st : ApexState)
    (t : String) :
    (check_consistency_rule cfg st t).2.current_balance =
      st.current_balance ∧
    (check_consistency_rule cfg st t).2.high_water_mark =
      st.high_water_mark := by
  unfold check_consistency_rule
  dsimp only
  split_ifs <;> exact ⟨rfl, rfl⟩

lemma check_all_rules_preserves (cfg : ApexConfig) (st : ApexState)
    (d t : String) :
    (check_all_rules cfg st d t).2.current_balance = st.current_balance ∧
    (check_all_rules cfg st d t).2.high_water_mark = st.high_water_mark := by
  unfold check_all_rules
  dsimp only
  constructor
  · rw [(check_consistency_preserves _ _ _).1,
      (check_drawdown_preserves _ _ _).1, (check_daily_preserves _ _ _).1]
  · rw [(check_consistency_preserves _ _ _).2,
      (check_drawdown_preserves _ _ _).2, (check_daily_preserves _ _ _).2]

/-- Claim C10 (confirmed): after any `record_trade_result` call on an
initialized account state, `high_water_mark ≥ current_balance`, the
high-water mark never decreases, and the balance changes by exactly the
trade's pnl in dollars (`pnl_ticks × tick value`). -/
theorem record_trade_result_invariants (cfg : ApexConfig) (st : ApexState)
    (ticker : String) (pnl_ticks : ℚ) (date_key today_key : String) :
    (record_trade_result cfg st ticker pnl_ticks date_key
        today_key).2.current_balance ≤
      (record_trade_result cfg st ticker pnl_ticks date_key
        today_key).2.high_water_mark ∧
    st.high_water_mark ≤
      (record_trade_result cfg st ticker pnl_ticks date_key
        today_key).2.high_water_mark ∧
    (record_trade_result cfg st ticker pnl_ticks date_key
        today_key).2.current_balance =
      st.current_balance + pnl_ticks * get_tick_value cfg ticker := by
  unfold record_trade_result
  dsimp only
  split_ifs with h
  · obtain ⟨hb, hh⟩ := check_all_rules_preserves cfg
      { st with
        daily_pnl := assocAdd st.daily_pnl date_key
          (ticks_to_dollars cfg ticker pnl_ticks),
        current_balance := st.current_balance +
          ticks_to_dollars cfg ticker pnl_ticks,
        high_water_mark := st.current_balance +
          ticks_to_dollars cfg ticker pnl_ticks }
      date_key today_key
    refine ⟨?_, ?_, ?_⟩
    · rw [hb, hh]
    · rw [hh]; exact le_of_lt h
    · rw [hb]; rfl
  · obtain ⟨hb, hh⟩ := check_all_rules_preserves cfg
      { st with
        daily_pnl := assocAdd st.daily_pnl date_key
          (ticks_to_dollars cfg ticker pnl_ticks),
        current_balance := st.current_balance +
          ticks_to_dollars cfg ticker pnl_ticks }
      date_key today_key
    refine ⟨?_, ?_, ?_⟩
    · rw [hb, hh]; exact le_of_not_lt h
    · rw [hh]
    · rw [hb]; rfl

/-! ## Session time tiers (`time_tiers.py`)

`get_current_tier` is a pure function of the EST wall-clock time, which
is passed in as `(hour, minute)`; a `time(h, m)` comparison is encoded as
a comparison of minutes since midnight.  Display fields (emoji, colour,
session-window string) are omitted. -/

structure Tier where
  name : String
  min_confidence : ℚ
  risk : ℚ
  t1_rr : ℚ
  t2_rr : ℚ
  warning : Bool
  blocked : Bool
deriving DecidableEq, Repr

def TIERS_PRIME : Tier := ⟨"PRIME TIME", 80, 250, 3/2, 2, false, false⟩
def TIERS_MIDDAY : Tier := ⟨"MID-DAY", 85, 175, 1, 3/2, false, false⟩
def TIERS_CLOSE : Tier := ⟨"MARKET CLOSE", 85, 175, 1, 3/2, false, false⟩
def TIERS_EVENING : Tier := ⟨"EVENING SESSION", 90, 125, 1, 3/2, true, false⟩
def TIERS_BLOCKED : Tier := ⟨"OVERNIGHT - NO TRADING", 100, 0, 1, 1, true, true⟩
def TIERS_PREMARKET : Tier := ⟨"PRE-MARKET", 90, 125, 1, 3/2, true, false⟩

/-- `get_current_tier` (`time_tiers.py` lines 104–140). -/
def get_current_tier (hour minute : ℕ) : Tier :=
  let m := hour * 60 + minute
  if 570 ≤ m ∧ m < 690 then TIERS_PRIME
  else if 690 ≤ m ∧ m < 930 then TIERS_MIDDAY
  else if 930 ≤ m ∧ m < 1020 then TIERS_CLOSE
  else if 1020 ≤ m ∧ m < 1260 then TIERS_EVENING
  else if 1260 ≤ m ∨ m < 360 then TIERS_BLOCKED
  else if 360 ≤ m ∧ m < 570 then TIERS_PREMARKET
  else TIERS_MIDDAY

/-- `is_trading_blocked` (`time_tiers.py` lines 143–165). -/
def is_trading_blocked (tier : Tier) (hour : ℕ) : Bool × Option String :=
  if tier.blocked then
    (true, some ("Overnight block (9 PM - 6 AM). Trading resumes in ~" ++
      toString (if 21 ≤ hour then (24 - hour) + 6 else 6 - hour) ++
      " hours."))
  else (false, none)

/-- `get_tier_confidence_threshold` (`time_tiers.py` lines 168–171).
Imported by `mtf_analyzer.py` but never called there. -/
def get_tier_confidence_threshold (hour minute : ℕ) : ℚ :=
  (get_current_tier hour minute).min_confidence

/-! ## Multi-timeframe analyzer (`mtf_analyzer.py`, class MTFAnalyzer)

Candles are dicts of floats; the `details` dicts and the free-text
narrative (`generate_written_analysis`, entry instructions, rationale)
are display-only and omitted — every branch condition and score is kept. -/

inductive TrendDirection
  | bullish | bearish | neutral
deriving DecidableEq, Repr

inductive TrendStrength
  | strong | moderate | weak
deriving DecidableEq, Repr

def trend_dir_str : TrendDirection → String
  | TrendDirection.bullish => "bullish"
  | TrendDirection.bearish => "bearish"
  | TrendDirection.neutral => "neutral"

structure Candle where
  open_ : ℚ
  high : ℚ
  low : ℚ
  close : ℚ
  volume : ℚ
deriving DecidableEq, Repr, Inhabited

def WEIGHT_TF_ALIGNMENT : ℚ := 40
def WEIGHT_STRUCTURE : ℚ := 25
def WEIGHT_VOLUME : ℚ := 15
def WEIGHT_RISK_REWARD : ℚ := 10
def WEIGHT_CATALYSTS : ℚ := 10
def MIN_RISK_REWARD : ℚ := 1

/-- `MTFAnalyzer.analyze_trend` (`mtf_analyzer.py` lines 177–260),
returning `(direction, strength)` (the `details` dict is display-only). -/
def analyze_trend (candles : List Candle) : TrendDirection × TrendStrength :=
  if candles.length < 3 then (TrendDirection.neutral, TrendStrength.weak)
  else
    let first_open := (candles.headD default).open_
    let last_close := (candles.getLastD default).close
    let bullish_count :=
      (candles.filter (fun c => decide (c.open_ < c.close))).length
    let bearish_count :=
      (candles.filter (fun c => decide (c.close < c.open_))).length
    let total := candles.length
    let recent_highs := takeLast 3 (candles.map (fun c => c.high))
    let recent_lows := takeLast 3 (candles.map (fun c => c.low))
    let higher_highs := decide ((recent_highs.headD 0) < (recent_highs.getLastD 0))
    let higher_lows := decide ((recent_lows.headD 0) < (recent_lows.getLastD 0))
    let lower_highs := decide ((recent_highs.getLastD 0) < (recent_highs.headD 0))
    let lower_lows := decide ((recent_lows.getLastD 0) < (recent_lows.headD 0))
    let change_pct :=
      if 0 < first_open then (last_close - first_open) / first_open * 100
      else 0
    let direction :=
      if higher_highs && higher_lows && decide (1/20 < change_pct) then
        TrendDirection.bullish
      else if lower_highs && lower_lows && decide (change_pct < -(1/20)) then
        TrendDirection.bearish
      else if |change_pct| < 3/100 then TrendDirection.neutral
      else if 0 < change_pct then TrendDirection.bullish
      else TrendDirection.bearish
    let bullish_ratio := if 0 < total then (bullish_count : ℚ) / total else 0
    let bearish_ratio := if 0 < total then (bearish_count : ℚ) / total else 0
    let strength :=
      match direction with
      | TrendDirection.bullish =>
        if decide (7/10 ≤ bullish_ratio) && higher_highs && higher_lows then
          TrendStrength.strong
        else if 1/2 ≤ bullish_ratio then TrendStrength.moderate
        else TrendStrength.weak
      | TrendDirection.bearish =>
        if decide (7/10 ≤ bearish_ratio) && lower_highs && lower_lows then
          TrendStrength.strong
        else if 1/2 ≤ bearish_ratio then TrendStrength.moderate
        else TrendStrength.weak
      | TrendDirection.neutral => TrendStrength.weak
    (direction, strength)

/-- `MTFAnalyzer.analyze_structure` (`mtf_analyzer.py` lines 306–366):
`(score, is_clean, issues)`. -/
def analyze_structure (candles : List Candle) : ℚ × Bool × List String :=
  if candles.length < 5 then (50, false, ["Insufficient data"])
  else
    let avg_range := listMean (candles.map (fun c => c.high - c.low))
    let pairs := candles.zip candles.tail
    let overlaps := (pairs.filter (fun pc =>
      decide (avg_range * (1/2) <
        min pc.1.high pc.2.high - max pc.1.low pc.2.low))).length
    let overlap_ratio :=
      if 1 < candles.length then
        (overlaps : ℚ) / ((candles.length - 1 : ℕ) : ℚ)
      else 0
    let sc1 : ℚ × List String :=
      if 3/5 < overlap_ratio then (100 - 30, ["High overlap (choppy)"])
      else if 2/5 < overlap_ratio then (100 - 15, ["Moderate overlap"])
      else (100, [])
    let wick_dominated := (candles.filter (fun c =>
      decide (0 < c.high - c.low ∧
        |c.close - c.open_| / (c.high - c.low) < 3/10))).length
    let wick_ratio := (wick_dominated : ℚ) / candles.length
    let sc2 : ℚ × List String :=
      if 1/2 < wick_ratio then (sc1.1 - 20, sc1.2 ++ ["Wick-dominated candles"])
      else if 3/10 < wick_ratio then (sc1.1 - 10, sc1.2 ++ ["Some wick dominance"])
      else sc1
    let ds := analyze_trend candles
    let sc3 : ℚ × List String :=
      if ds.2 = TrendStrength.weak then
        (sc2.1 - 15, sc2.2 ++ ["Weak trend structure"])
      else sc2
    let is_clean := decide (70 ≤ sc3.1 ∧ sc3.2.length ≤ 1)
    (max 0 sc3.1, is_clean, sc3.2)

/-- `MTFAnalyzer.analyze_volume` (`mtf_analyzer.py` lines 368–417):
`(score, is_confirming)`; the details dict is display-only.  Note that
`is_confirming` is computed on the *unclamped* score. -/
def analyze_volume (candles : List Candle) : ℚ × Bool :=
  if candles.length < 3 then (50, false)
  else
    let volumes := (candles.map (fun c => c.volume)).filter
      (fun v => decide (0 < v))
    if volumes.length < 3 then (50, false)
    else
      let ds := analyze_trend candles
      let direction := ds.1
      let recent_vol := if 3 ≤ volumes.length then takeLast 3 volumes else volumes
      let older_vol :=
        if 3 < volumes.length then volumes.take (volumes.length - 3)
        else volumes.take 1
      let avg_recent := if recent_vol ≠ [] then listMean recent_vol else 0
      let avg_older := if older_vol ≠ [] then listMean older_vol else avg_recent
      let vol_change :=
        if 0 < avg_older then (avg_recent - avg_older) / avg_older * 100
        else 0
      let score : ℚ :=
        if direction = TrendDirection.bullish ∨
            direction = TrendDirection.bearish then
          if 20 < vol_change then 75 + 25
          else if 0 < vol_change then 75 + 10
          else if vol_change < -20 then 75 - 25
          else 75
        else 75
      (min 100 (max 0 score), decide (75 ≤ score))

/-- `MTFAnalyzer.check_catalyst_risk` (`mtf_analyzer.py` lines 419–447):
time-tier / weekday safety.  In the deployed code `TIME_TIERS_AVAILABLE`
is true (`time_tiers.py` ships with the repo). -/
def check_catalyst_risk (tier : Tier) (weekday hour : ℕ) :
    ℚ × Bool × List String :=
  let ib := is_trading_blocked tier hour
  if ib.1 then (0, false, [ib.2.getD ""])
  else if 5 ≤ weekday then (0, false, ["Weekend - markets closed"])
  else
    let score : ℚ :=
      if (10 ≤ hour ∧ hour < 12) ∨ (14 ≤ hour ∧ hour < 15) then
        min 100 (100 + 10)
      else 100
    (max 0 score, decide (70 ≤ score), [])

/-- `MTFAnalyzer.calculate_risk_reward` (`mtf_analyzer.py` lines
449–480): `(rounded ratio, is_valid, score)`; zero arguments are falsy. -/
def calculate_risk_reward (entry stop target : ℚ) (direction : TradeDir) :
    ℚ × Bool × ℚ :=
  if entry = 0 ∨ stop = 0 ∨ target = 0 then (0, false, 0)
  else
    let risk := if direction = TradeDir.LONG then |entry - stop|
      else |stop - entry|
    let reward := if direction = TradeDir.LONG then |target - entry|
      else |entry - target|
    if risk ≤ 0 then (0, false, 0)
    else
      let ratio := reward / risk
      let score : ℚ :=
        if 2 ≤ ratio then 100
        else if 3/2 ≤ ratio then 80
        else if 1 ≤ ratio then 60
        else 30
      (roundPy2 ratio, decide (MIN_RISK_REWARD ≤ ratio), score)

/-- `MTFAnalyzer._calculate_atr` (`mtf_analyzer.py` lines 790–808). -/
def calculate_atr (candles : List Candle) (period : ℕ) : ℚ :=
  if candles.length < 2 then 10
  else
    let trs := (candles.zip candles.tail).map (fun pc =>
      max (pc.2.high - pc.2.low)
        (max |pc.2.high - pc.1.close| |pc.2.low - pc.1.close|))
    if trs = [] then 10 else listMean (takeLast period trs)

structure TFInfo where
  direction : TrendDirection
  strength : TrendStrength
deriving DecidableEq, Repr

structure TFComponent where
  score : ℚ
  weight : ℚ
  alignment : String
  tf15 : TFInfo
  tf5 : TFInfo
  tf1 : TFInfo
deriving DecidableEq, Repr

structure StructureComponent where
  score : ℤ
  weight : ℚ
  weighted_score : ℚ
  is_clean : Bool
  issues : List String
deriving DecidableEq, Repr

structure VolumeComponent where
  score : ℚ
  weight : ℚ
  weighted_score : ℚ
  is_confirming : Bool
deriving DecidableEq, Repr

structure CatalystComponent where
  score : ℚ
  weight : ℚ
  weighted_score : ℚ
  is_safe : Bool
  warnings : List String
deriving DecidableEq, Repr

structure RRComponent where
  score : ℚ
  weight : ℚ
  weighted_score : ℚ
  ratio : ℚ
  is_valid : Bool
deriving DecidableEq, Repr

/-- The `result` dict of `MTFAnalyzer.full_analysis`.  Keys that the
source only adds on some paths are `Option`-valued (`none` = key absent);
`structure_comp` / `volume_comp` / `risk_reward_comp` stand for
`components['structure' / 'volume' / 'risk_reward']`. -/
structure AnalysisResult where
  direction : String
  confidence : ℤ
  signal_type : String
  stay_away_reason : Option String
  warnings : List String
  tier : Tier
  suggested_risk : ℚ
  timeframe : Option TFComponent
  structure_comp : Option StructureComponent
  volume_comp : Option VolumeComponent
  catalysts : Option CatalystComponent
  risk_reward_comp : Option RRComponent
  current_price : Option ℚ
  entry : Option ℚ
  stop : Option ℚ
  stop_capped : Option Bool
  stop_pips : Option ℚ
  target1 : Option ℚ
  target2 : Option ℚ
  target : Option ℚ
  target1_pips : Option ℚ
  target2_pips : Option ℚ
  target1_rr : Option ℚ
  target2_rr : Option ℚ
  risk_reward : Option ℚ
  entry_type : Option String
  position_size : Option PositionSize
  potential_profit_t1 : Option ℚ
  potential_profit_t2 : Option ℚ
deriving DecidableEq, Repr

/-- The initial `result` dict of `full_analysis` (with the tier fields
already filled in, as `TIME_TIERS_AVAILABLE` holds). -/
def init_result (tier : Tier) : AnalysisResult where
  direction := "STAY_AWAY"
  confidence := 0
  signal_type := "NO_TRADE"
  stay_away_reason := none
  warnings := []
  tier := tier
  suggested_risk := tier.risk
  timeframe := none
  structure_comp := none
  volume_comp := none
  catalysts := none
  risk_reward_comp := none
  current_price := none
  entry := none
  stop := none
  stop_capped := none
  stop_pips := none
  target1 := none
  target2 := none
  target := none
  target1_pips := none
  target2_pips := none
  target1_rr := none
  target2_rr := none
  risk_reward := none
  entry_type := none
  position_size := none
  potential_profit_t1 := none
  potential_profit_t2 := none

/-- `MTFAnalyzer.full_analysis` (`mtf_analyzer.py` lines 484–788).  The
wall-clock reads (`get_current_tier`, `is_trading_blocked`,
`check_catalyst_risk`) are driven by the `(weekday, hour, minute)`
parameters.  The `entry`/`stop`/`target` parameters of the Python
signature are unused by its body and therefore dropped.  Entry
instructions and the extended-hours warning are display-only text and
omitted. -/
def full_analysis (weekday hour minute : ℕ)
    (candles_15m candles_5m candles_1m : List Candle) (ticker : Ticker) :
    AnalysisResult :=
  let tier := get_current_tier hour minute
  let result := init_result tier
  let ib := is_trading_blocked tier hour
  if ib.1 then
    { result with
      stay_away_reason := ib.2,
      warnings := ["Trading blocked during overnight hours (9 PM - 6 AM)"] }
  else
    let t15 := analyze_trend candles_15m
    let t5 := analyze_trend candles_5m
    let t1 := analyze_trend candles_1m
    let result := { result with
      timeframe := some
        { score := 0, weight := WEIGHT_TF_ALIGNMENT, alignment := "none",
          tf15 := ⟨t15.1, t15.2⟩, tf5 := ⟨t5.1, t5.2⟩, tf1 := ⟨t1.1, t1.2⟩ } }
    if t15.1 = TrendDirection.neutral then
      { result with
        stay_away_reason := some "15m chart unclear - no directional bias",
        warnings := ["15m timeframe is neutral/choppy"] }
    else if t15.2 = TrendStrength.weak then
      { result with
        stay_away_reason := some "15m momentum too weak - backbone invalid",
        warnings := ["15m shows weak momentum - waiting for strength"] }
    else if t5.2 = TrendStrength.weak then
      { result with
        stay_away_reason := some "5m momentum too weak - no setup quality",
        warnings := ["5m shows weak momentum - caution advised"] }
    else
      let directions := [t15.1, t5.1, t1.1]
      let bullish_count := (directions.filter
        (fun d => decide (d = TrendDirection.bullish))).length
      let bearish_count := (directions.filter
        (fun d => decide (d = TrendDirection.bearish))).length
      if bullish_count = 3 ∨ bearish_count = 3 then
        let bias := if bullish_count = 3 then TradeDir.LONG else TradeDir.SHORT
        let tf_score : ℚ := 40
        let result := { result with
          timeframe := some
            { score := tf_score, weight := WEIGHT_TF_ALIGNMENT,
              alignment := "full", tf15 := ⟨t15.1, t15.2⟩,
              tf5 := ⟨t5.1, t5.2⟩, tf1 := ⟨t1.1, t1.2⟩ } }
        let s15 := analyze_structure candles_15m
        let s5 := analyze_structure candles_5m
        let structure_score := s15.1 * (3/5) + s5.1 * (2/5)
        let structure_weighted := structure_score / 100 * WEIGHT_STRUCTURE
        if structure_score < 50 then
          { result with
            stay_away_reason := some "Structure too sloppy/chaotic",
            warnings := s15.2.2 ++ s5.2.2 }
        else
          let result := { result with
            structure_comp := some
              { score := roundPyInt structure_score,
                weight := WEIGHT_STRUCTURE,
                weighted_score := roundPy1 structure_weighted,
                is_clean := s15.2.1 && s5.2.1,
                issues := s15.2.2 ++ s5.2.2 } }
          let vol := analyze_volume candles_5m
          let volume_weighted := vol.1 / 100 * WEIGHT_VOLUME
          let result := { result with
            warnings := result.warnings ++
              (if vol.1 < 40 then ["Volume non-confirming"] else []),
            volume_comp := some
              { score := vol.1, weight := WEIGHT_VOLUME,
                weighted_score := roundPy1 volume_weighted,
                is_confirming := vol.2 } }
          let cat := check_catalyst_risk tier weekday hour
          let catalyst_weighted := cat.1 / 100 * WEIGHT_CATALYSTS
          let result := { result with
            warnings := result.warnings ++ (if cat.2.1 then [] else cat.2.2),
            catalysts := some
              { score := cat.1, weight := WEIGHT_CATALYSTS,
                weighted_score := roundPy1 catalyst_weighted,
                is_safe := cat.2.1, warnings := cat.2.2 } }
          match candles_1m.getLast? with
          | none => result
          | some last_candle =>
            let current_price := last_candle.close
            let atr0 := calculate_atr candles_5m 14
            let atr := if atr0 < 1 then 5 else atr0
            let stop_distance := atr * (3/2)
            let raw_stop :=
              if bias = TradeDir.LONG then
                roundPy2 (current_price - stop_distance)
              else roundPy2 (current_price + stop_distance)
            let cap := cap_stop_loss ticker current_price raw_stop bias
            let result := { result with
              current_price := some current_price,
              entry := some current_price,
              stop := some cap.1, stop_capped := some cap.2.1,
              stop_pips := some cap.2.2,
              warnings := result.warnings ++ (if cap.2.1 then
                ["Stop capped at " ++
                  toString (get_ticker_info ticker).max_stop_points ++
                  " pts (max for instrument)"] else []) }
            let t1_rr := tier.t1_rr
            let t2_rr := tier.t2_rr
            let target1 :=
              if bias = TradeDir.LONG then
                roundPy2 (current_price + cap.2.2 * t1_rr)
              else roundPy2 (current_price - cap.2.2 * t1_rr)
            let target2 :=
              if bias = TradeDir.LONG then
                roundPy2 (current_price + cap.2.2 * t2_rr)
              else roundPy2 (current_price - cap.2.2 * t2_rr)
            let result := { result with
              target1 := some target1, target2 := some target2,
              target := some target2,
              target1_pips := some (roundPy2 (cap.2.2 * t1_rr)),
              target2_pips := some (roundPy2 (cap.2.2 * t2_rr)),
              target1_rr := some t1_rr, target2_rr := some t2_rr }
            let rr := calculate_risk_reward current_price cap.1 target2 bias
            let rr_weighted := rr.2.2 / 100 * WEIGHT_RISK_REWARD
            let result := { result with
              risk_reward := some rr.1,
              risk_reward_comp := some
                { score := rr.2.2, weight := WEIGHT_RISK_REWARD,
                  weighted_score := roundPy1 rr_weighted, ratio := rr.1,
                  is_valid := rr.2.1 } }
            let total_confidence := tf_score + structure_weighted +
              volume_weighted + rr_weighted + catalyst_weighted
            let confidence := roundPyInt (min 100 (max 0 total_confidence))
            let bias_str :=
              if bias = TradeDir.LONG then "LONG" else "SHORT"
            let result := { result with
              direction := bias_str, confidence := confidence,
              signal_type :=
                if 60 ≤ confidence then bias_str else "NO_TRADE",
              entry_type := some "MTF_UNANIMOUS" }
            let position :=
              calculate_position_size ticker current_price cap.1 tier.risk
            let t1_profit := (position.contracts : ℚ) *
              (roundPy2 (cap.2.2 * t1_rr) / position.tick_size) *
              position.tick_value
            let t2_profit := (position.contracts : ℚ) *
              (roundPy2 (cap.2.2 * t2_rr) / position.tick_size) *
              position.tick_value
            { result with
              position_size := some position,
              potential_profit_t1 := some (roundPy2 t1_profit),
              potential_profit_t2 := some (roundPy2 t2_profit) }
      else
        let conflicting :=
          (if t15.1 ≠ t5.1 then
            ["15m=" ++ trend_dir_str t15.1 ++ " vs 5m=" ++ trend_dir_str t5.1]
          else []) ++
          (if t5.1 ≠ t1.1 then
            ["5m=" ++ trend_dir_str t5.1 ++ " vs 1m=" ++ trend_dir_str t1.1]
          else []) ++
          (if t15.1 ≠ t1.1 then
            ["15m=" ++ trend_dir_str t15.1 ++ " vs 1m=" ++ trend_dir_str t1.1]
          else [])
        { result with
          stay_away_reason := some ("MTF Conflict - All 3 timeframes must agree (" ++
            String.intercalate ", " conflicting ++ ")"),
          warnings := ["Timeframes not aligned - waiting for unanimous agreement"] }

lemma is_trading_blocked_isSome (t : Tier) (h : ℕ)
    (hb : (is_trading_blocked t h).1 = true) :
    ((is_trading_blocked t h).2).isSome = true := by
  unfold is_trading_blocked at *
  split_ifs at * <;> simp_all

lemma count_three_iff (d15 d5 d1 : TrendDirection) :
    (([d15, d5, d1].filter
        (fun d => decide (d = TrendDirection.bullish))).length = 3 ∨
     ([d15, d5, d1].filter
        (fun d => decide (d = TrendDirection.bearish))).length = 3) ↔
    (d15 = d5 ∧ d5 = d1 ∧ d15 ≠ TrendDirection.neutral) := by
  cases d15 <;> cases d5 <;> cases d1 <;> decide

/-- Claim C1 (confirmed): if the 15m trend is neutral, or the 15m or 5m
strength is weak, or the three timeframe directions are not unanimously
the same non-neutral direction, then `full_analysis` stays away — verdict
`STAY_AWAY`, confidence 0, `signal_type` `NO_TRADE`, and a stated
stay-away reason — regardless of the component scores (and of the session
tier, which can only force the same early exit). -/
theorem stay_away_gate (weekday hour minute : ℕ)
    (c15 c5 c1 : List Candle) (tkr : Ticker)
    (h : (analyze_trend c15).1 = TrendDirection.neutral ∨
         (analyze_trend c15).2 = TrendStrength.weak ∨
         (analyze_trend c5).2 = TrendStrength.weak ∨
         ¬((analyze_trend c15).1 = (analyze_trend c5).1 ∧
           (analyze_trend c5).1 = (analyze_trend c1).1 ∧
           (analyze_trend c15).1 ≠ TrendDirection.neutral)) :
    (full_analysis weekday hour minute c15 c5 c1 tkr).direction =
      "STAY_AWAY" ∧
    (full_analysis weekday hour minute c15 c5 c1 tkr).confidence = 0 ∧
    (full_analysis weekday hour minute c15 c5 c1 tkr).signal_type =
      "NO_TRADE" ∧
    ((full_analysis weekday hour minute c15 c5 c1 tkr).stay_away_reason
      ).isSome = true := by
  unfold full_analysis
  dsimp only
  by_cases hb :
      (is_trading_blocked (get_current_tier hour minute) hour).1 = true
  · rw [if_pos hb]
    exact ⟨rfl, rfl, rfl, is_trading_blocked_isSome _ _ hb⟩
  · rw [if_neg hb]
    by_cases h1 : (analyze_trend c15).1 = TrendDirection.neutral
    · rw [if_pos h1]
      exact ⟨rfl, rfl, rfl, rfl⟩
    · rw [if_neg h1]
      by_cases h2 : (analyze_trend c15).2 = TrendStrength.weak
      · rw [if_pos h2]
        exact ⟨rfl, rfl, rfl, rfl⟩
      · rw [if_neg h2]
        by_cases h3 : (analyze_trend c5).2 = TrendStrength.weak
        · rw [if_pos h3]
          exact ⟨rfl, rfl, rfl, rfl⟩
        · rw [if_neg h3]
          have hconf : ¬((analyze_trend c15).1 = (analyze_trend c5).1 ∧
              (analyze_trend c5).1 = (analyze_trend c1).1 ∧
              (analyze_trend c15).1 ≠ TrendDirection.neutral) := by
            tauto
          rw [if_neg ((count_three_iff _ _ _).not.mpr hconf)]
          exact ⟨rfl, rfl, rfl, rfl⟩

theorem stay_away_gate_witness :
    ((analyze_trend ([] : List Candle)).1 = TrendDirection.neutral ∨
     (analyze_trend ([] : List Candle)).2 = TrendStrength.weak ∨
     (analyze_trend ([] : List Candle)).2 = TrendStrength.weak ∨
     ¬((analyze_trend ([] : List Candle)).1 =
         (analyze_trend ([] : List Candle)).1 ∧
       (analyze_trend ([] : List Candle)).1 =
         (analyze_trend ([] : List Candle)).1 ∧
       (analyze_trend ([] : List Candle)).1 ≠ TrendDirection.neutral)) ∧
    (full_analysis 1 12 0 [] [] [] Ticker.MNQ).direction = "STAY_AWAY" ∧
    (full_analysis 1 12 0 [] [] [] Ticker.MNQ).confidence = 0 ∧
    (full_analysis 1 12 0 [] [] [] Ticker.MNQ).signal_type = "NO_TRADE" ∧
    ((full_analysis 1 12 0 [] [] [] Ticker.MNQ).stay_away_reason
      ).isSome = true :=
  ⟨Or.inl rfl, stay_away_gate 1 12 0 [] [] [] Ticker.MNQ (Or.inl rfl)⟩

lemma full_analysis_verdict (weekday hour minute : ℕ)
    (c15 c5 c1 : List Candle) (tkr : Ticker) :
    (full_analysis weekday hour minute c15 c5 c1 tkr).direction =
      "STAY_AWAY" ∨
    (((full_analysis weekday hour minute c15 c5 c1 tkr).signal_type =
        (full_analysis weekday hour minute c15 c5 c1 tkr).direction) ↔
      (60 : ℤ) ≤ (full_analysis weekday hour minute c15 c5 c1 tkr).confidence) := by
  unfold full_analysis
  dsimp only
  by_cases hb :
      (is_trading_blocked (get_current_tier hour minute) hour).1 = true
  · rw [if_pos hb]; exact Or.inl rfl
  · rw [if_neg hb]
    by_cases h1 : (analyze_trend c15).1 = TrendDirection.neutral
    · rw [if_pos h1]; exact Or.inl rfl
    · rw [if_neg h1]
      by_cases h2 : (analyze_trend c15).2 = TrendStrength.weak
      · rw [if_pos h2]; exact Or.inl rfl
      · rw [if_neg h2]
        by_cases h3 : (analyze_trend c5).2 = TrendStrength.weak
        · rw [if_pos h3]; exact Or.inl rfl
        · rw [if_neg h3]
          by_cases h4 : (([(analyze_trend c15).1, (analyze_trend c5).1,
              (analyze_trend c1).1].filter
                (fun d => decide (d = TrendDirection.bullish))).length = 3 ∨
              ([(analyze_trend c15).1, (analyze_trend c5).1,
              (analyze_trend c1).1].filter
                (fun d => decide (d = TrendDirection.bearish))).length = 3)
          · rw [if_pos h4]
            by_cases h5 :
                ((analyze_structure c15).1 * (3/5) +
                  (analyze_structure c5).1 * (2/5)) < 50
            · rw [if_pos h5]; exact Or.inl rfl
            · rw [if_neg h5]
              cases hgl : c1.getLast? with
              | none => exact Or.inl rfl
              | some last_candle =>
                refine Or.inr ?_
                dsimp only
                split_ifs <;> simp_all
          · rw [if_neg h4]; exact Or.inl rfl

/-- Claim C2 (amended): for every analysis whose verdict direction is LONG
or SHORT (the alignment gate passed and trade levels were produced), the
emitted `signal_type` equals that direction **iff** the final confidence
is at least the fixed threshold 60.  The session tier's minimum
confidence (80/85/90/100) is *not* applied to `signal_type`:
`get_tier_confidence_threshold` is imported by the analyzer but never
called (`mtf_analyzer.py` line 727 hard-codes `>= 60`). -/
theorem signal_type_threshold (weekday hour minute : ℕ)
    (c15 c5 c1 : List Candle) (tkr : Ticker)
    (h : (full_analysis weekday hour minute c15 c5 c1 tkr).direction =
        "LONG" ∨
      (full_analysis weekday hour minute c15 c5 c1 tkr).direction =
        "SHORT") :
    ((full_analysis weekday hour minute c15 c5 c1 tkr).signal_type =
        (full_analysis weekday hour minute c15 c5 c1 tkr).direction) ↔
      (60 : ℤ) ≤ (full_analysis weekday hour minute c15 c5 c1 tkr).confidence := by
  rcases full_analysis_verdict weekday hour minute c15 c5 c1 tkr with hd | hiff
  · rcases h with h | h <;> rw [hd] at h <;> exact absurd h (by decide)
  · exact hiff

/-- Three bullish candles with rising highs/lows and no volume: the trend
reads bullish/strong, structure and volume degrade to their neutral 50
scores, and — at 12:00 EST on a Tuesday — the full analysis lands at
confidence 78. -/
def candles_bull_small : List Candle :=
  [⟨100, 101, 99, 101, 0⟩, ⟨101, 102, 100, 102, 0⟩, ⟨102, 103, 101, 103, 0⟩]

lemma analyze_trend_bull_small :
    analyze_trend candles_bull_small =
      (TrendDirection.bullish, TrendStrength.strong) := by
  norm_num [analyze_trend, candles_bull_small, takeLast]

lemma analyze_structure_bull_small :
    analyze_structure candles_bull_small =
      (50, false, ["Insufficient data"]) := by
  norm_num [analyze_structure, candles_bull_small]

lemma analyze_volume_bull_small :
    analyze_volume candles_bull_small = (50, false) := by
  norm_num [analyze_volume, candles_bull_small]

lemma calculate_atr_bull_small : calculate_atr candles_bull_small 14 = 2 := by
  norm_num [calculate_atr, candles_bull_small, listMean, takeLast]
  decide

lemma full_analysis_midday_eval :
    (full_analysis 1 12 0 candles_bull_small candles_bull_small
        candles_bull_small Ticker.MNQ).signal_type = "LONG" ∧
    (full_analysis 1 12 0 candles_bull_small candles_bull_small
        candles_bull_small Ticker.MNQ).direction = "LONG" ∧
    (full_analysis 1 12 0 candles_bull_small candles_bull_small
        candles_bull_small Ticker.MNQ).confidence = 78 ∧
    (full_analysis 1 12 0 candles_bull_small candles_bull_small
        candles_bull_small Ticker.MNQ).tier = TIERS_MIDDAY := by
  have hgl : candles_bull_small.getLast? = some ⟨102, 103, 101, 103, 0⟩ := rfl
  have e1 : (TrendDirection.bullish = TrendDirection.neutral) = False := by
    simp
  have e2 : (TrendStrength.strong = TrendStrength.weak) = False := by simp
  have e3 : (TrendDirection.bullish = TrendDirection.bearish) = False := by
    simp
  unfold full_analysis
  norm_num [analyze_trend_bull_small, analyze_structure_bull_small,
    analyze_volume_bull_small, calculate_atr_bull_small, hgl, e1, e2, e3,
    get_current_tier, TIERS_MIDDAY, is_trading_blocked, check_catalyst_risk,
    init_result, cap_stop_loss, get_ticker_info, TICK_VALUES,
    calculate_risk_reward, MIN_RISK_REWARD, roundPy2, roundPyInt,
    roundHalfEven, WEIGHT_STRUCTURE, WEIGHT_VOLUME, WEIGHT_CATALYSTS,
    WEIGHT_RISK_REWARD, WEIGHT_TF_ALIGNMENT, abs_of_nonneg, abs_of_nonpos]

theorem signal_type_threshold_witness :
    ((full_analysis 1 12 0 candles_bull_small candles_bull_small
        candles_bull_small Ticker.MNQ).direction = "LONG" ∨
     (full_analysis 1 12 0 candles_bull_small candles_bull_small
        candles_bull_small Ticker.MNQ).direction = "SHORT") ∧
    (((full_analysis 1 12 0 candles_bull_small candles_bull_small
        candles_bull_small Ticker.MNQ).signal_type =
      (full_analysis 1 12 0 candles_bull_small candles_bull_small
        candles_bull_small Ticker.MNQ).direction) ↔
      (60 : ℤ) ≤ (full_analysis 1 12 0 candles_bull_small candles_bull_small
        candles_bull_small Ticker.MNQ).confidence) :=
  ⟨Or.inl full_analysis_midday_eval.2.1,
   signal_type_threshold 1 12 0 candles_bull_small candles_bull_small
     candles_bull_small Ticker.MNQ (Or.inl full_analysis_midday_eval.2.1)⟩

/-- Claim C2 (counterexample): in the MIDDAY tier (minimum confidence 85)
the analysis of `candles_bull_small` reaches confidence 78 < 85, yet the
emitted `signal_type` is the aligned direction LONG — the claimed
equivalence "verdict = direction iff confidence ≥ tier minimum" is false,
because the code compares against the fixed 60 instead. -/
theorem tier_threshold_not_applied_cex :
    (full_analysis 1 12 0 candles_bull_small candles_bull_small
        candles_bull_small Ticker.MNQ).signal_type = "LONG" ∧
    (full_analysis 1 12 0 candles_bull_small candles_bull_small
        candles_bull_small Ticker.MNQ).confidence = 78 ∧
    (full_analysis 1 12 0 candles_bull_small candles_bull_small
        candles_bull_small Ticker.MNQ).tier.min_confidence = 85 ∧
    ¬((full_analysis 1 12 0 candles_bull_small candles_bull_small
        candles_bull_small Ticker.MNQ).tier.min_confidence ≤
      ((full_analysis 1 12 0 candles_bull_small candles_bull_small
        candles_bull_small Ticker.MNQ).confidence : ℚ)) := by
  obtain ⟨hsig, _, hconf, htier⟩ := full_analysis_midday_eval
  refine ⟨hsig, hconf, ?_, ?_⟩
  · rw [htier]; rfl
  · rw [htier, hconf]
    norm_num [TIERS_MIDDAY]

/-- Wide-range bullish candles: ATR 60, so the raw ATR stop lies far
beyond the 15-point MNQ cap. -/
def candles_bull_wide : List Candle :=
  [⟨100, 130, 70, 101, 0⟩, ⟨101, 131, 71, 102, 0⟩, ⟨102, 132, 72, 103, 0⟩]

/-- Bullish 1m candles whose final close `100.004` is off the cent grid. -/
def candles_bull_offgrid : List Candle :=
  [⟨99, 100, 98, 199/2, 0⟩, ⟨199/2, 201/2, 197/2, 100, 0⟩,
   ⟨100, 101, 99, 25001/250, 0⟩]

lemma analyze_trend_bull_wide :
    analyze_trend candles_bull_wide =
      (TrendDirection.bullish, TrendStrength.strong) := by
  norm_num [analyze_trend, candles_bull_wide, takeLast]

lemma analyze_trend_bull_offgrid :
    analyze_trend candles_bull_offgrid =
      (TrendDirection.bullish, TrendStrength.strong) := by
  norm_num [analyze_trend, candles_bull_offgrid, takeLast]

lemma analyze_structure_bull_wide :
    analyze_structure candles_bull_wide =
      (50, false, ["Insufficient data"]) := by
  norm_num [analyze_structure, candles_bull_wide]

lemma analyze_volume_bull_wide :
    analyze_volume candles_bull_wide = (50, false) := by
  norm_num [analyze_volume, candles_bull_wide]

lemma calculate_atr_bull_wide : calculate_atr candles_bull_wide 14 = 60 := by
  norm_num [calculate_atr, candles_bull_wide, listMean, takeLast]
  decide

/-- Claim C5 (counterexample): with an entry price of `100.004` (off the
cent grid, as a float close can be) and a capped MNQ stop, the emitted
stop is `round(entry − 15, 2) = 85.00`, whose distance from the entry is
`15.004 > 15 = max_stop_points` — the claimed bound `|entry − stop| ≤ M`
fails by the rounding of the capped stop. -/
theorem stop_cap_exceeds_max_cex :
    (full_analysis 1 12 0 candles_bull_wide candles_bull_wide
        candles_bull_offgrid Ticker.MNQ).entry = some (25001/250) ∧
    (full_analysis 1 12 0 candles_bull_wide candles_bull_wide
        candles_bull_offgrid Ticker.MNQ).stop = some 85 ∧
    (full_analysis 1 12 0 candles_bull_wide candles_bull_wide
        candles_bull_offgrid Ticker.MNQ).stop_capped = some true ∧
    ¬(|(25001/250 : ℚ) - 85| ≤ (get_ticker_info Ticker.MNQ).max_stop_points) := by
  have hgl : candles_bull_offgrid.getLast? =
      some ⟨100, 101, 99, 25001/250, 0⟩ := rfl
  have e1 : (TrendDirection.bullish = TrendDirection.neutral) = False := by
    simp
  have e2 : (TrendStrength.strong = TrendStrength.weak) = False := by simp
  have e3 : (TrendDirection.bullish = TrendDirection.bearish) = False := by
    simp
  unfold full_analysis
  norm_num [analyze_trend_bull_wide, analyze_trend_bull_offgrid,
    analyze_structure_bull_wide, analyze_volume_bull_wide,
    calculate_atr_bull_wide, hgl, e1, e2, e3,
    get_current_tier, TIERS_MIDDAY, is_trading_blocked, check_catalyst_risk,
    init_result, cap_stop_loss, get_ticker_info, TICK_VALUES,
    calculate_risk_reward, MIN_RISK_REWARD, roundPy2, roundPyInt,
    roundHalfEven, WEIGHT_STRUCTURE, WEIGHT_VOLUME, WEIGHT_CATALYSTS,
    WEIGHT_RISK_REWARD, WEIGHT_TF_ALIGNMENT, abs_of_nonneg, abs_of_nonpos]

/-! ## Webhook ingestion and candle aggregation
(`scanners/tradingview_webhook_scanner.py`)

Prices here are Python floats that may be non-finite: `PyFloat` carries
`nan` / `inf` / `ninf` explicitly, and `pyltb` is the Python `<` on
floats (false whenever NaN is involved).  A parsed JSON number is a
`JNum`; Python's `json` accepts the non-standard `NaN` / `Infinity`
tokens, and `float()` converts them without error, whereas `int()` raises
on them (caught by the webhook's catch-all handler as a 500).  The state
tracks one instrument's three candle buffers (the storage dict is keyed
per ticker; instruments are independent) plus the `candle_history`
database rows (an `INSERT OR REPLACE` keyed on timeframe + timestamp).
The JSON-file backup (`save_candle_history`) and the downstream analysis
run are side effects outside the candle state. -/

inductive PyFloat
  | fin (q : ℚ) | nan | inf | ninf
deriving DecidableEq, Repr, Inhabited

/-- Python `<` on floats: comparisons involving NaN are false. -/
def pyltb : PyFloat → PyFloat → Bool
  | PyFloat.fin a, PyFloat.fin b => decide (a < b)
  | PyFloat.fin _, PyFloat.inf => true
  | PyFloat.ninf, PyFloat.fin _ => true
  | PyFloat.ninf, PyFloat.inf => true
  | _, _ => false

/-- Python `max(iterable)` on floats: keep the current maximum, replace
it when `item > current`. -/
def pyMax : List PyFloat → PyFloat
  | [] => default
  | h :: t => t.foldl (fun cur x => if pyltb cur x then x else cur) h

/-- Python `min(iterable)` on floats. -/
def pyMin : List PyFloat → PyFloat
  | [] => default
  | h :: t => t.foldl (fun cur x => if pyltb x cur then x else cur) h

/-- A parsed JSON number (Python float semantics). -/
inductive JNum
  | num (q : ℚ) | nanV | infV | ninfV
deriving DecidableEq, Repr

/-- `float(x)`: total on parsed numbers, non-finite values included. -/
def pyFloatOfJNum : JNum → PyFloat
  | JNum.num q => PyFloat.fin q
  | JNum.nanV => PyFloat.nan
  | JNum.infV => PyFloat.inf
  | JNum.ninfV => PyFloat.ninf

/-- `int(x)` on a float: truncation; raises `ValueError`/`OverflowError`
on NaN and infinities. -/
def pyIntOfJNum : JNum → Option ℤ
  | JNum.num q => some (pyInt q)
  | _ => none

/-- A stored candle dict (prices are floats, volume passed through
`int`). -/
structure WCandle where
  time : String
  open_ : PyFloat
  high : PyFloat
  low : PyFloat
  close : PyFloat
  volume : ℤ
deriving DecidableEq, Repr, Inhabited

inductive TF
  | one | five | fifteen
deriving DecidableEq, Repr

/-- `CANDLE_LIMITS`. -/
def CANDLE_LIMITS : TF → ℕ
  | TF.one => 300
  | TF.five => 100
  | TF.fifteen => 60

structure ScanState where
  one_m : List WCandle
  five_m : List WCandle
  fifteen_m : List WCandle
  db : List (TF × WCandle)
deriving DecidableEq, Repr

def init_scan_state : ScanState := ⟨[], [], [], []⟩

def ScanState.buffer (st : ScanState) : TF → List WCandle
  | TF.one => st.one_m
  | TF.five => st.five_m
  | TF.fifteen => st.fifteen_m

def ScanState.setBuffer (st : ScanState) : TF → List WCandle → ScanState
  | TF.one, l => { st with one_m := l }
  | TF.five, l => { st with five_m := l }
  | TF.fifteen, l => { st with fifteen_m := l }

/-- Append to a `deque(maxlen = limit)`: the oldest element is evicted
once the buffer is full. -/
def dequeAppend (limit : ℕ) (l : List α) (c : α) : List α :=
  if l.length < limit then l ++ [c] else l.drop 1 ++ [c]

/-- `database.save_candle`: `INSERT OR REPLACE` keyed on
`(ticker, timeframe, timestamp)` (one instrument is modelled, so the key
is `(timeframe, time)`). -/
def db_save_candle (db : List (TF × WCandle)) (tf : TF) (c : WCandle) :
    List (TF × WCandle) :=
  db.filter (fun r => decide ¬(r.1 = tf ∧ r.2.time = c.time)) ++ [(tf, c)]

/-- One chunk's aggregate (`build_aggregated_candles` inner loop): time
and open of the first candle, `max` of highs, `min` of lows, close of the
last candle, sum of volumes. -/
def chunk_aggregate (chunk : List WCandle) : WCandle where
  time := (chunk.headD default).time
  open_ := (chunk.headD default).open_
  high := pyMax (chunk.map (fun c => c.high))
  low := pyMin (chunk.map (fun c => c.low))
  close := (chunk.getLastD default).close
  volume := (chunk.map (fun c => c.volume)).sum

/-- `build_aggregated_candles` (`tradingview_webhook_scanner.py` lines
619–671): rebuild the target buffer from the complete `period`-sized
chunks of the 1m buffer, but only when the number of complete periods has
grown; the rebuilt list passes through the target deque (hence
`takeLast`). -/
def build_aggregated_candles (st : ScanState) (period : ℕ) (target_tf : TF) :
    ScanState :=
  let candles_1m := st.one_m
  let num_complete := candles_1m.length / period
  if num_complete = 0 then st
  else
    let current_count := (st.buffer target_tf).length
    if num_complete ≤ current_count then st
    else
      let rebuilt := (List.range num_complete).filterMap (fun i =>
        let chunk := (candles_1m.drop (i * period)).take period
        if chunk.length = period then some (chunk_aggregate chunk) else none)
      st.setBuffer target_tf (takeLast (CANDLE_LIMITS target_tf) rebuilt)

/-- `aggregate_candles` (lines 602–617). -/
def aggregate_candles (st : ScanState) : ScanState :=
  if st.one_m.length < 5 then st
  else
    build_aggregated_candles
      (build_aggregated_candles st 5 TF.five) 15 TF.fifteen

/-- `store_candle` (lines 577–599): append to the in-memory deque, save
to the database, and auto-aggregate after each 1m candle. -/
def store_candle (st : ScanState) (timeframe : TF) (candle_data : WCandle) :
    ScanState :=
  let st := st.setBuffer timeframe
    (dequeAppend (CANDLE_LIMITS timeframe) (st.buffer timeframe) candle_data)
  let st := { st with db := db_save_candle st.db timeframe candle_data }
  if timeframe = TF.one then aggregate_candles st else st

inductive WebhookResponse
  | ok | bad_request | server_error
deriving DecidableEq, Repr

/-- The parsed webhook JSON payload (fields after `data.get` defaults). -/
structure WebhookPayload where
  ticker : String
  timeframe : TF
  time : String
  open_ : JNum
  high : JNum
  low : JNum
  close : JNum
  volume : JNum
deriving DecidableEq, Repr

/-- The candle-ingestion path of the `/webhook` handler (lines
2404–2455): build `candle_data` with `float(...)`/`int(...)` conversions
and store it.  A conversion error propagates to the route's catch-all
`except`, which answers 500 with no state mutated; price conversions
never raise (NaN and infinities convert fine), only the `int(volume)`
conversion can.  The analysis run after storage does not touch the candle
state. -/
def webhook (st : ScanState) (p : WebhookPayload) :
    WebhookResponse × ScanState :=
  match pyIntOfJNum p.volume with
  | none => (WebhookResponse.server_error, st)
  | some v =>
      let candle_data : WCandle :=
        ⟨p.time, pyFloatOfJNum p.open_, pyFloatOfJNum p.high,
         pyFloatOfJNum p.low, pyFloatOfJNum p.close, v⟩
      (WebhookResponse.ok, store_candle st p.timeframe candle_data)

lemma build_preserves_one_m (st : ScanState) (p : ℕ) (tf : TF)
    (h : tf ≠ TF.one) :
    (build_aggregated_candles st p tf).one_m = st.one_m := by
  unfold build_aggregated_candles
  dsimp only
  split_ifs <;> cases tf <;> simp_all [ScanState.setBuffer]

lemma aggregate_preserves_one_m (st : ScanState) :
    (aggregate_candles st).one_m = st.one_m := by
  unfold aggregate_candles
  split_ifs
  · rfl
  · rw [build_preserves_one_m _ _ _ (by decide),
      build_preserves_one_m _ _ _ (by decide)]

/-- Claim C3 (counterexample): a candle whose `open` parses as NaN is
accepted and stored — the webhook answers success and the 1m buffer
gains the candle; no finiteness validation exists. -/
theorem nonfinite_candle_stored_cex :
    (webhook init_scan_state
        ⟨"MNQ", TF.one, "2025-01-02 09:31:00", JNum.nanV, JNum.num 2,
         JNum.num 1, JNum.num 2, JNum.num 5⟩).1 = WebhookResponse.ok ∧
    (webhook init_scan_state
        ⟨"MNQ", TF.one, "2025-01-02 09:31:00", JNum.nanV, JNum.num 2,
         JNum.num 1, JNum.num 2, JNum.num 5⟩).2.one_m =
      [⟨"2025-01-02 09:31:00", PyFloat.nan, PyFloat.fin 2, PyFloat.fin 1,
        PyFloat.fin 2, 5⟩] ∧
    init_scan_state.one_m = [] := by
  refine ⟨rfl, ?_, rfl⟩
  norm_num [webhook, store_candle, aggregate_candles, dequeAppend,
    pyIntOfJNum, pyInt, init_scan_state, ScanState.setBuffer,
    ScanState.buffer, db_save_candle, CANDLE_LIMITS, pyFloatOfJNum]

/-- Claim C3 (amended): ingestion applies no finiteness check to prices —
any payload whose `volume` converts with `int()` is stored, non-finite
prices included, the timeframe's buffer gaining exactly the converted
candle; only a payload whose `int(volume)` conversion raises (a
non-finite volume) is rejected by the catch-all handler with a 500 and no
state mutation. -/
theorem webhook_no_finiteness_validation (st : ScanState)
    (p : WebhookPayload) :
    (pyIntOfJNum p.volume = none →
      webhook st p = (WebhookResponse.server_error, st)) ∧
    (∀ v, pyIntOfJNum p.volume = some v →
      (webhook st p).1 = WebhookResponse.ok ∧
      (webhook st p).2.buffer p.timeframe =
        dequeAppend (CANDLE_LIMITS p.timeframe) (st.buffer p.timeframe)
          ⟨p.time, pyFloatOfJNum p.open_, pyFloatOfJNum p.high,
           pyFloatOfJNum p.low, pyFloatOfJNum p.close, v⟩) := by
  constructor
  · intro h
    unfold webhook
    rw [h]
  · intro v h
    unfold webhook
    rw [h]
    dsimp only
    refine ⟨rfl, ?_⟩
    unfold store_candle
    dsimp only
    cases htf : p.timeframe with
    | one =>
        rw [if_pos rfl]
        simp only [ScanState.buffer]
        rw [aggregate_preserves_one_m]
        simp [ScanState.setBuffer, ScanState.buffer]
    | five =>
        rw [if_neg (by decide)]
        simp [ScanState.setBuffer, ScanState.buffer]
    | fifteen =>
        rw [if_neg (by decide)]
        simp [ScanState.setBuffer, ScanState.buffer]

theorem webhook_no_finiteness_validation_witness :
    pyIntOfJNum (JNum.num 7) = some 7 ∧
    (webhook init_scan_state
        ⟨"MNQ", TF.one, "t1", JNum.infV, JNum.num 2, JNum.num 1,
         JNum.num 2, JNum.num 7⟩).1 = WebhookResponse.ok ∧
    (webhook init_scan_state
        ⟨"MNQ", TF.one, "t1", JNum.infV, JNum.num 2, JNum.num 1,
         JNum.num 2, JNum.num 7⟩).2.buffer TF.one =
      dequeAppend (CANDLE_LIMITS TF.one) (init_scan_state.buffer TF.one)
        ⟨"t1", PyFloat.inf, PyFloat.fin 2, PyFloat.fin 1, PyFloat.fin 2,
         7⟩ := by
  have h7 : pyIntOfJNum (JNum.num 7) = some 7 := by
    norm_num [pyIntOfJNum, pyInt]
  exact ⟨h7,
    ((webhook_no_finiteness_validation init_scan_state
      ⟨"MNQ", TF.one, "t1", JNum.infV, JNum.num 2, JNum.num 1,
       JNum.num 2, JNum.num 7⟩).2 7 h7).1,
    ((webhook_no_finiteness_validation init_scan_state
      ⟨"MNQ", TF.one, "t1", JNum.infV, JNum.num 2, JNum.num 1,
       JNum.num 2, JNum.num 7⟩).2 7 h7).2⟩

/-! ### Aggregation correctness (claim C4)

`ingest_all` replays a stream of 1-minute candles for one instrument
through `store_candle`, exactly as the webhook does; `spec_chunks` is the
direct chunked-aggregate description that the incremental rebuilds are
proved to implement. -/

def ingest_all (cs : List WCandle) : ScanState :=
  cs.foldl (fun st c => store_candle st TF.one c) init_scan_state

def spec_chunks (cs : List WCandle) (p : ℕ) : List WCandle :=
  (List.range (cs.length / p)).map
    (fun i => chunk_aggregate ((cs.drop (i * p)).take p))

lemma takeLast_of_le (l : List α) (n : ℕ) (h : l.length ≤ n) :
    takeLast n l = l := by
  unfold takeLast
  rw [Nat.sub_eq_zero_of_le h, List.drop_zero]

lemma takeLast_length (l : List α) (n : ℕ) :
    (takeLast n l).length = min n l.length := by
  unfold takeLast
  rw [List.length_drop]
  omega

lemma dequeAppend_takeLast (lim : ℕ) (l : List α) (c : α) (h : 0 < lim) :
    dequeAppend lim (takeLast lim l) c = takeLast lim (l ++ [c]) := by
  unfold dequeAppend
  rw [takeLast_length]
  by_cases hl : l.length < lim
  · rw [if_pos (by omega)]
    rw [takeLast_of_le l lim hl.le, takeLast_of_le]
    simp
    omega
  · rw [if_neg (by omega)]
    unfold takeLast
    rw [List.drop_drop, List.length_append, List.length_singleton,
      List.drop_append_of_le_length (by omega)]
    have he : l.length - lim + 1 = l.length + 1 - lim := by omega
    rw [he]

lemma spec_chunks_length (cs : List WCandle) (p : ℕ) :
    (spec_chunks cs p).length = cs.length / p := by
  simp [spec_chunks]

lemma spec_chunks_nil_of_short (cs : List WCandle) (p : ℕ)
    (h : cs.length / p = 0) : spec_chunks cs p = [] := by
  unfold spec_chunks
  rw [h]
  rfl

lemma chunk_of_take (cs : List WCandle) (p i m : ℕ) (h : i * p + p ≤ m) :
    ((cs.take m).drop (i * p)).take p = (cs.drop (i * p)).take p := by
  rw [List.drop_take, List.take_take]
  congr 1
  omega

lemma chunk_of_append (cs : List WCandle) (c : WCandle) (p i : ℕ)
    (h : i * p + p ≤ cs.length) :
    ((cs ++ [c]).drop (i * p)).take p = (cs.drop (i * p)).take p := by
  rw [List.drop_append_of_le_length (by omega),
    List.take_append_of_le_length]
  rw [List.length_drop]
  omega

lemma chunk_length (cs : List WCandle) (p i : ℕ)
    (h : i * p + p ≤ cs.length) :
    ((cs.drop (i * p)).take p).length = p := by
  rw [List.length_take, List.length_drop]
  omega

lemma spec_chunks_take (cs : List WCandle) (p m : ℕ) :
    spec_chunks (cs.take m) p =
      (List.range (min m cs.length / p)).map
        (fun i => chunk_aggregate ((cs.drop (i * p)).take p)) := by
  unfold spec_chunks
  rw [List.length_take]
  apply List.map_congr_left
  intro i hi
  rw [List.mem_range] at hi
  congr 1
  apply chunk_of_take
  have h1 : i + 1 ≤ min m cs.length / p := hi
  have h2 : (i + 1) * p ≤ (min m cs.length / p) * p :=
    Nat.mul_le_mul_right p h1
  have h3 : (min m cs.length / p) * p ≤ min m cs.length :=
    Nat.div_mul_le_self _ p
  have h4 : min m cs.length ≤ m := Nat.min_le_left _ _
  have h5 : (i + 1) * p = i * p + p := by ring
  omega

lemma buffer_setBuffer (st : ScanState) (tf : TF) (l : List WCandle) :
    (st.setBuffer tf l).buffer tf = l := by
  cases tf <;> rfl

lemma build_preserves_buffer (st : ScanState) (p : ℕ) (tf tf' : TF)
    (h : tf' ≠ tf) :
    (build_aggregated_candles st p tf).buffer tf' = st.buffer tf' := by
  unfold build_aggregated_candles
  dsimp only
  split_ifs <;> cases tf <;> cases tf' <;>
    simp_all [ScanState.setBuffer, ScanState.buffer]

lemma filterMap_range_eq_map (m : ℕ) (f : ℕ → Option β) (g : ℕ → β)
    (h : ∀ i < m, f i = some (g i)) :
    (List.range m).filterMap f = (List.range m).map g := by
  induction m with
  | zero => rfl
  | succ m ih =>
      rw [List.range_succ, List.filterMap_append, List.map_append,
        ih (fun i hi => h i (by omega))]
      simp [h m (by omega)]

lemma build_step (cs : List WCandle) (c : WCandle) (st : ScanState)
    (p : ℕ) (tf : TF) (hlim : 300 / p ≤ CANDLE_LIMITS tf)
    (hone : st.one_m = takeLast 300 (cs ++ [c]))
    (hbuf : st.buffer tf = spec_chunks (cs.take (min cs.length 300)) p) :
    (build_aggregated_candles st p tf).buffer tf =
      spec_chunks ((cs ++ [c]).take (min (cs.length + 1) 300)) p := by
  have hLlen : st.one_m.length = min (cs.length + 1) 300 := by
    rw [hone, takeLast_length, List.length_append, List.length_singleton]
    omega
  have hRHS : spec_chunks ((cs ++ [c]).take (min (cs.length + 1) 300)) p =
      (List.range (min (cs.length + 1) 300 / p)).map
        (fun i => chunk_aggregate (((cs ++ [c]).drop (i * p)).take p)) := by
    rw [spec_chunks_take, List.length_append, List.length_singleton,
      show min (min (cs.length + 1) 300) (cs.length + 1) =
        min (cs.length + 1) 300 by omega]
  have hOLD : st.buffer tf =
      (List.range (min cs.length 300 / p)).map
        (fun i => chunk_aggregate ((cs.drop (i * p)).take p)) := by
    rw [hbuf, spec_chunks_take,
      show min (min cs.length 300) cs.length = min cs.length 300 by omega]
  have hmono : min cs.length 300 / p ≤ min (cs.length + 1) 300 / p :=
    Nat.div_le_div_right (by omega)
  unfold build_aggregated_candles
  dsimp only
  by_cases hz : st.one_m.length / p = 0
  · rw [if_pos hz]
    rw [hLlen] at hz
    have h0 : min cs.length 300 / p = 0 := Nat.le_zero.mp (hz ▸ hmono)
    rw [hOLD, hRHS, h0, hz]
    rfl
  · rw [if_neg hz]
    have hcc : (st.buffer tf).length = min cs.length 300 / p := by
      rw [hOLD, List.length_map, List.length_range]
    by_cases hcur : st.one_m.length / p ≤ (st.buffer tf).length
    · rw [if_pos hcur]
      rw [hcc, hLlen] at hcur
      have heq : min (cs.length + 1) 300 / p = min cs.length 300 / p :=
        le_antisymm hcur hmono
      rw [hOLD, hRHS, heq]
      apply List.map_congr_left
      intro i hi
      rw [List.mem_range] at hi
      congr 1
      refine (chunk_of_append cs c p i ?_).symm
      have h1 : (i + 1) * p ≤ (min cs.length 300 / p) * p :=
        Nat.mul_le_mul_right p hi
      have h2 : (min cs.length 300 / p) * p ≤ min cs.length 300 :=
        Nat.div_mul_le_self _ p
      have h3 : (i + 1) * p = i * p + p := by ring
      omega
    · rw [if_neg hcur]
      rw [hcc, hLlen] at hcur
      have hsmall : cs.length + 1 ≤ 300 := by
        by_contra hbig
        have h300 : min (cs.length + 1) 300 = 300 := by omega
        have h300b : min cs.length 300 = 300 := by omega
        rw [h300, h300b] at hcur
        omega
      have hmin : min (cs.length + 1) 300 = cs.length + 1 := by omega
      have hfull : st.one_m = cs ++ [c] := by
        rw [hone]
        apply takeLast_of_le
        rw [List.length_append, List.length_singleton]
        omega
      rw [buffer_setBuffer]
      have hchunklen : ∀ i < st.one_m.length / p,
          ((st.one_m.drop (i * p)).take p).length = p := by
        intro i hi
        apply chunk_length
        have h1 : (i + 1) * p ≤ (st.one_m.length / p) * p :=
          Nat.mul_le_mul_right p hi
        have h2 : (st.one_m.length / p) * p ≤ st.one_m.length :=
          Nat.div_mul_le_self _ p
        have h3 : (i + 1) * p = i * p + p := by ring
        omega
      rw [filterMap_range_eq_map _ _
        (fun i => chunk_aggregate ((st.one_m.drop (i * p)).take p))
        (fun i hi => by rw [if_pos (hchunklen i hi)])]
      have hlen2 : ((List.range (st.one_m.length / p)).map
          (fun i => chunk_aggregate ((st.one_m.drop (i * p)).take p))).length ≤
          CANDLE_LIMITS tf := by
        rw [List.length_map, List.length_range]
        calc st.one_m.length / p ≤ 300 / p := by
              apply Nat.div_le_div_right
              omega
          _ ≤ CANDLE_LIMITS tf := hlim
      rw [takeLast_of_le _ _ hlen2, hRHS, hfull]
      have hnum : (cs ++ [c]).length / p = min (cs.length + 1) 300 / p := by
        rw [List.length_append, List.length_singleton, hmin]
      rw [hnum]

lemma aggregate_step (cs : List WCandle) (c : WCandle) (st2 : ScanState)
    (hone : st2.one_m = takeLast 300 (cs ++ [c]))
    (h5 : st2.five_m = spec_chunks (cs.take (min cs.length 300)) 5)
    (h15 : st2.fifteen_m = spec_chunks (cs.take (min cs.length 300)) 15) :
    (aggregate_candles st2).one_m = takeLast 300 (cs ++ [c]) ∧
    (aggregate_candles st2).five_m =
      spec_chunks ((cs ++ [c]).take (min (cs.length + 1) 300)) 5 ∧
    (aggregate_candles st2).fifteen_m =
      spec_chunks ((cs ++ [c]).take (min (cs.length + 1) 300)) 15 := by
  refine ⟨by rw [aggregate_preserves_one_m, hone], ?_, ?_⟩ <;>
    unfold aggregate_candles
  · by_cases hsz : st2.one_m.length < 5
    · rw [if_pos hsz]
      have hlen : st2.one_m.length = min (cs.length + 1) 300 := by
        rw [hone, takeLast_length, List.length_append, List.length_singleton]
        omega
      rw [h5,
        spec_chunks_nil_of_short _ _ (by rw [List.length_take]; omega),
        spec_chunks_nil_of_short _ _ (by
          rw [List.length_take, List.length_append, List.length_singleton]
          omega)]
    · rw [if_neg hsz]
      have hfive : ∀ s : ScanState, s.five_m = s.buffer TF.five :=
        fun _ => rfl
      rw [hfive, build_preserves_buffer _ _ _ _ (by decide), ← hfive]
      have hb := build_step cs c st2 5 TF.five (by norm_num [CANDLE_LIMITS])
        hone (by rw [← hfive]; exact h5)
      rw [hfive, hb]
  · by_cases hsz : st2.one_m.length < 5
    · rw [if_pos hsz]
      have hlen : st2.one_m.length = min (cs.length + 1) 300 := by
        rw [hone, takeLast_length, List.length_append, List.length_singleton]
        omega
      rw [h15,
        spec_chunks_nil_of_short _ _ (by rw [List.length_take]; omega),
        spec_chunks_nil_of_short _ _ (by
          rw [List.length_take, List.length_append, List.length_singleton]
          omega)]
    · rw [if_neg hsz]
      have hfif : ∀ s : ScanState, s.fifteen_m = s.buffer TF.fifteen :=
        fun _ => rfl
      rw [hfif]
      have hb := build_step cs c (build_aggregated_candles st2 5 TF.five) 15
        TF.fifteen (by norm_num [CANDLE_LIMITS])
        (by rw [build_preserves_one_m _ _ _ (by decide), hone])
        (by rw [build_preserves_buffer _ _ _ _ (by decide), ← hfif, h15])
      rw [hb]

lemma store_candle_step (cs : List WCandle) (c : WCandle) (st : ScanState)
    (h1 : st.one_m = takeLast 300 cs)
    (h5 : st.five_m = spec_chunks (cs.take (min cs.length 300)) 5)
    (h15 : st.fifteen_m = spec_chunks (cs.take (min cs.length 300)) 15) :
    (store_candle st TF.one c).one_m = takeLast 300 (cs ++ [c]) ∧
    (store_candle st TF.one c).five_m =
      spec_chunks ((cs ++ [c]).take (min (cs.length + 1) 300)) 5 ∧
    (store_candle st TF.one c).fifteen_m =
      spec_chunks ((cs ++ [c]).take (min (cs.length + 1) 300)) 15 := by
  unfold store_candle
  dsimp only
  rw [if_pos rfl]
  refine aggregate_step cs c _ ?_ ?_ ?_
  · show dequeAppend 300 st.one_m c = takeLast 300 (cs ++ [c])
    rw [h1]
    exact dequeAppend_takeLast 300 cs c (by norm_num)
  · exact h5
  · exact h15

lemma ingest_all_spec (cs : List WCandle) :
    (ingest_all cs).one_m = takeLast 300 cs ∧
    (ingest_all cs).five_m =
      spec_chunks (cs.take (min cs.length 300)) 5 ∧
    (ingest_all cs).fifteen_m =
      spec_chunks (cs.take (min cs.length 300)) 15 := by
  induction cs using List.reverseRecOn with
  | nil => exact ⟨rfl, rfl, rfl⟩
  | append_singleton cs c ih =>
      have hfold : ingest_all (cs ++ [c]) =
          store_candle (ingest_all cs) TF.one c := by
        unfold ingest_all
        rw [List.foldl_append]
        rfl
      have hlen : (cs ++ [c]).length = cs.length + 1 := by
        rw [List.length_append, List.length_singleton]
      rw [hfold, hlen]
      exact store_candle_step cs c (ingest_all cs) ih.1 ih.2.1 ih.2.2

lemma map_range_getD (m : ℕ) (f : ℕ → α) (i : ℕ) (h : i < m) (d : α) :
    ((List.range m).map f).getD i d = f i := by
  rw [List.getD_eq_getElem?_getD, List.getElem?_map, List.getElem?_range h]
  rfl

lemma pyMax_fold_fin (a : ℚ) (t : List ℚ) :
    (t.map PyFloat.fin).foldl
      (fun cur x => if pyltb cur x then x else cur) (PyFloat.fin a) =
    PyFloat.fin (t.foldl max a) := by
  induction t generalizing a with
  | nil => rfl
  | cons b t ih =>
      simp only [List.map_cons, List.foldl_cons]
      have hmax : (if pyltb (PyFloat.fin a) (PyFloat.fin b) then PyFloat.fin b
          else PyFloat.fin a) = PyFloat.fin (max a b) := by
        by_cases hab : a < b
        · simp [pyltb, hab, max_eq_right hab.le]
        · simp [pyltb, hab, max_eq_left (not_lt.mp hab)]
      rw [hmax]
      exact ih (max a b)

lemma pyMin_fold_fin (a : ℚ) (t : List ℚ) :
    (t.map PyFloat.fin).foldl
      (fun cur x => if pyltb x cur then x else cur) (PyFloat.fin a) =
    PyFloat.fin (t.foldl min a) := by
  induction t generalizing a with
  | nil => rfl
  | cons b t ih =>
      simp only [List.map_cons, List.foldl_cons]
      have hmin : (if pyltb (PyFloat.fin b) (PyFloat.fin a) then PyFloat.fin b
          else PyFloat.fin a) = PyFloat.fin (min a b) := by
        by_cases hab : b < a
        · simp [pyltb, hab, min_eq_right hab.le]
        · simp [pyltb, hab, min_eq_left (not_lt.mp hab)]
      rw [hmin]
      exact ih (min a b)

lemma pyMax_fin (qs : List ℚ) (h : qs ≠ []) :
    pyMax (qs.map PyFloat.fin) =
      PyFloat.fin (qs.foldl max (qs.headD 0)) := by
  cases qs with
  | nil => exact absurd rfl h
  | cons a t =>
      rw [List.headD_cons, List.foldl_cons, max_self]
      exact pyMax_fold_fin a t

lemma pyMin_fin (qs : List ℚ) (h : qs ≠ []) :
    pyMin (qs.map PyFloat.fin) =
      PyFloat.fin (qs.foldl min (qs.headD 0)) := by
  cases qs with
  | nil => exact absurd rfl h
  | cons a t =>
      rw [List.headD_cons, List.foldl_cons, min_self]
      exact pyMin_fold_fin a t

/-- Claim C4 (confirmed): replaying any stream of `5k` (resp. `15k`)
1-minute candles through the webhook's `store_candle` path, every derived
5m (resp. 15m) candle is the aggregate of its own complete period-sized
chunk of the ingested stream — timestamp and open of the chunk's first
candle, maximum high, minimum low, close of the last candle, sum of
volumes — and no aggregated candle ever comes from a partial
(shorter-than-period) group, the chunk always having exactly `period`
candles.  The final conjunct ties the code's `chunk_aggregate` (Python
`max`/`min` over floats) to the spec's arithmetic formula on finite
prices. -/
theorem aggregation_correct (cs : List WCandle) :
    (∀ k, cs.length = 5 * k →
      ∀ i, i < (ingest_all cs).five_m.length →
        ((cs.drop (i * 5)).take 5).length = 5 ∧
        (ingest_all cs).five_m.getD i default =
          chunk_aggregate ((cs.drop (i * 5)).take 5)) ∧
    (∀ k, cs.length = 15 * k →
      ∀ i, i < (ingest_all cs).fifteen_m.length →
        ((cs.drop (i * 15)).take 15).length = 15 ∧
        (ingest_all cs).fifteen_m.getD i default =
          chunk_aggregate ((cs.drop (i * 15)).take 15)) ∧
    (∀ (chunk : List WCandle) (qsh qsl : List ℚ), chunk ≠ [] →
      chunk.map (fun c => c.high) = qsh.map PyFloat.fin →
      chunk.map (fun c => c.low) = qsl.map PyFloat.fin →
      (chunk_aggregate chunk).time = (chunk.headD default).time ∧
      (chunk_aggregate chunk).open_ = (chunk.headD default).open_ ∧
      (chunk_aggregate chunk).high =
        PyFloat.fin (qsh.foldl max (qsh.headD 0)) ∧
      (chunk_aggregate chunk).low =
        PyFloat.fin (qsl.foldl min (qsl.headD 0)) ∧
      (chunk_aggregate chunk).close = (chunk.getLastD default).close ∧
      (chunk_aggregate chunk).volume =
        (chunk.map (fun c => c.volume)).sum) := by
  obtain ⟨h1, h5, h15⟩ := ingest_all_spec cs
  have h5m : (ingest_all cs).five_m =
      (List.range (min cs.length 300 / 5)).map
        (fun i => chunk_aggregate ((cs.drop (i * 5)).take 5)) := by
    rw [h5, spec_chunks_take,
      show min (min cs.length 300) cs.length = min cs.length 300 by omega]
  have h15m : (ingest_all cs).fifteen_m =
      (List.range (min cs.length 300 / 15)).map
        (fun i => chunk_aggregate ((cs.drop (i * 15)).take 15)) := by
    rw [h15, spec_chunks_take,
      show min (min cs.length 300) cs.length = min cs.length 300 by omega]
  refine ⟨?_, ?_, ?_⟩
  · intro k hk i hi
    rw [h5m, List.length_map, List.length_range] at hi
    have hbound : i * 5 + 5 ≤ cs.length := by
      have h1b : (i + 1) * 5 ≤ (min cs.length 300 / 5) * 5 :=
        Nat.mul_le_mul_right 5 hi
      have h2b : (min cs.length 300 / 5) * 5 ≤ min cs.length 300 :=
        Nat.div_mul_le_self _ 5
      omega
    refine ⟨chunk_length cs 5 i hbound, ?_⟩
    rw [h5m, map_range_getD _ _ i hi]
  · intro k hk i hi
    rw [h15m, List.length_map, List.length_range] at hi
    have hbound : i * 15 + 15 ≤ cs.length := by
      have h1b : (i + 1) * 15 ≤ (min cs.length 300 / 15) * 15 :=
        Nat.mul_le_mul_right 15 hi
      have h2b : (min cs.length 300 / 15) * 15 ≤ min cs.length 300 :=
        Nat.div_mul_le_self _ 15
      omega
    refine ⟨chunk_length cs 15 i hbound, ?_⟩
    rw [h15m, map_range_getD _ _ i hi]
  · intro chunk qsh qsl hne hh hl
    have hqsh : qsh ≠ [] := by
      intro h0
      rw [h0, List.map_nil, List.map_eq_nil_iff] at hh
      exact hne hh
    have hqsl : qsl ≠ [] := by
      intro h0
      rw [h0, List.map_nil, List.map_eq_nil_iff] at hl
      exact hne hl
    refine ⟨rfl, rfl, ?_, ?_, rfl, rfl⟩
    · show pyMax (chunk.map (fun c => c.high)) = _
      rw [hh, pyMax_fin qsh hqsh]
    · show pyMin (chunk.map (fun c => c.low)) = _
      rw [hl, pyMin_fin qsl hqsl]

/-- Fifteen 1-minute candles (5·3 and 15·1), finite prices. -/
def sample_1m_candles : List WCandle :=
  [⟨"00", PyFloat.fin 10, PyFloat.fin 12, PyFloat.fin 9, PyFloat.fin 11, 1⟩,
   ⟨"01", PyFloat.fin 11, PyFloat.fin 13, PyFloat.fin 10, PyFloat.fin 12, 2⟩,
   ⟨"02", PyFloat.fin 12, PyFloat.fin 14, PyFloat.fin 11, PyFloat.fin 13, 3⟩,
   ⟨"03", PyFloat.fin 13, PyFloat.fin 15, PyFloat.fin 12, PyFloat.fin 14, 4⟩,
   ⟨"04", PyFloat.fin 14, PyFloat.fin 16, PyFloat.fin 13, PyFloat.fin 15, 5⟩,
   ⟨"05", PyFloat.fin 15, PyFloat.fin 17, PyFloat.fin 14, PyFloat.fin 16, 6⟩,
   ⟨"06", PyFloat.fin 16, PyFloat.fin 18, PyFloat.fin 15, PyFloat.fin 17, 7⟩,
   ⟨"07", PyFloat.fin 17, PyFloat.fin 19, PyFloat.fin 16, PyFloat.fin 18, 8⟩,
   ⟨"08", PyFloat.fin 18, PyFloat.fin 20, PyFloat.fin 17, PyFloat.fin 19, 9⟩,
   ⟨"09", PyFloat.fin 19, PyFloat.fin 21, PyFloat.fin 18, PyFloat.fin 20, 10⟩,
   ⟨"10", PyFloat.fin 20, PyFloat.fin 22, PyFloat.fin 19, PyFloat.fin 21, 11⟩,
   ⟨"11", PyFloat.fin 21, PyFloat.fin 23, PyFloat.fin 20, PyFloat.fin 22, 12⟩,
   ⟨"12", PyFloat.fin 22, PyFloat.fin 24, PyFloat.fin 21, PyFloat.fin 23, 13⟩,
   ⟨"13", PyFloat.fin 23, PyFloat.fin 25, PyFloat.fin 22, PyFloat.fin 24, 14⟩,
   ⟨"14", PyFloat.fin 24, PyFloat.fin 26, PyFloat.fin 23, PyFloat.fin 25, 15⟩]

set_option maxRecDepth 4000 in
theorem aggregation_correct_witness :
    (sample_1m_candles.length = 5 * 3 ∧
      0 < (ingest_all sample_1m_candles).five_m.length ∧
      ((sample_1m_candles.drop (0 * 5)).take 5).length = 5 ∧
      (ingest_all sample_1m_candles).five_m.getD 0 default =
        chunk_aggregate ((sample_1m_candles.drop (0 * 5)).take 5)) ∧
    (sample_1m_candles.length = 15 * 1 ∧
      0 < (ingest_all sample_1m_candles).fifteen_m.length ∧
      ((sample_1m_candles.drop (0 * 15)).take 15).length = 15 ∧
      (ingest_all sample_1m_candles).fifteen_m.getD 0 default =
        chunk_aggregate ((sample_1m_candles.drop (0 * 15)).take 15)) ∧
    ((chunk_aggregate (sample_1m_candles.take 5)).high =
        PyFloat.fin ([12, 13, 14, 15, 16].foldl max
          ([12, 13, 14, 15, 16].headD 0)) ∧
      (chunk_aggregate (sample_1m_candles.take 5)).low =
        PyFloat.fin ([9, 10, 11, 12, 13].foldl min
          ([9, 10, 11, 12, 13].headD 0)) ∧
      (chunk_aggregate (sample_1m_candles.take 5)).volume =
        ((sample_1m_candles.take 5).map (fun c => c.volume)).sum) := by
  have h := aggregation_correct sample_1m_candles
  have hf := h.2.2 (sample_1m_candles.take 5) [12, 13, 14, 15, 16]
    [9, 10, 11, 12, 13] (by decide) (by decide) (by decide)
  exact ⟨⟨by decide, by decide,
      h.1 3 (by decide) 0 (by decide)⟩,
    ⟨by decide, by decide,
      h.2.1 1 (by decide) 0 (by decide)⟩,
    hf.2.2.1, hf.2.2.2.1, hf.2.2.2.2.2⟩
